import Mathlib

/-!
Verification of the gocart per-agent coordination engine.

This file shallowly embeds, in Lean 4 over the real numbers, the parts of the
repository that the checked claims are about:

* the jerk-limited trajectory planner (Go file embedded in
  `src/frontend/src/App.vue` after the Vue component: `MovementPlanner`,
  `CalculatePointToPointTrajectory`, `CalculateStoppingTrajectory`,
  `calculateStateAtTime`, `moveStateForward`, ...);
* the live PID variant (`src/unnamed/part_001`, the variant whose
  five-argument `NewPID` matches the calls in `NewController`);
* the controller state machine and negotiation handlers (`src/controller.go`).

Modelling conventions (documented once here):

* Go `float64` values become `ℝ`; `int64` request ids and nanosecond clock
  readings become `Int`.
* Wall-clock time is passed explicitly: a `Clock` carries the `time.Now()`
  reading of the handler invocation, as seconds (`sec : ℝ`, used by
  `time.Since(t0).Seconds()`) and as nanoseconds (`ns : Int`, used by
  `time.Now().UnixNano()`).  Successive `time.Now()` reads inside one handler
  are abstracted as `ns`, `ns + 1`, ... (the Go monotonic clock produces
  strictly increasing readings); retry deadlines `time.Now().Add(1000ms)`
  become `ns + 1000000000`.
* Go channels are modelled by their presence (`Bool` flags, `nil` = absent)
  plus an explicit list of emitted `Effect`s; a channel value stored in a
  struct is modelled by the `Side` it belongs to.
* The `func(*Trajectory)` update closures stored on pending requests always
  are either "set the left border trajectory" or "set the right border
  trajectory", so they are modelled by the `Side` they update.
* The Go map `PendingRequests` is modelled as an association list; the Go
  `range` iteration order is modelled as list order.
* The enum carrying `BORDER_MOVE` / `EMERGENCY_STOP` and the response enum
  with `STOP_CONFIRM` are declared in a repository file that is not under
  `src/` (the `src/message.go` present is an older variant); their fields and
  constructors are modelled from the spec wire structures, which the uses in
  `src/controller.go` pin down completely.
-/

namespace GoCart

noncomputable section

/-- Real cube root on nonnegative inputs, modelling Go `math.Cbrt` (the planner
only ever takes the cube root of a nonnegative quantity). -/
def rcbrt (x : ℝ) : ℝ := x ^ ((1 : ℝ) / 3)

/-- One breakpoint state of a trajectory: relative time since `t0`, position,
velocity, acceleration, and the jerk applied over the phase starting here.
Mirrors `internalState` in the planner source. -/
structure internalState where
  t : ℝ
  p : ℝ
  v : ℝ
  a : ℝ
  j : ℝ

/-- Integrate a constant-jerk phase forward, mirroring
`internalState.moveStateForward`.  The Go method mutates the receiver's `j`
field before integrating; functionally the integration only depends on the
`jerk` argument, and the mutation is modelled by `withJerk` at the use sites. -/
def moveStateForward (s : internalState) (dt jerk : ℝ) : internalState :=
  { t := s.t + dt
    p := s.p + s.v * dt + 0.5 * s.a * dt * dt + (1 / 6) * jerk * dt * dt * dt
    v := s.v + s.a * dt + 0.5 * jerk * dt * dt
    a := s.a + jerk * dt
    j := jerk }

/-- Model of the Go side effect `s.j = jerk` performed by `moveStateForward`
on its receiver: the stored breakpoint keeps the jerk of the phase that starts
at it. -/
def withJerk (s : internalState) (jerk : ℝ) : internalState :=
  { s with j := jerk }

/-- Model of the assignment `initialState.t = 0` done by the stopping
constructors. -/
def withTimeZero (s : internalState) : internalState :=
  { s with t := 0 }

/-- A planned trajectory: end position, eight breakpoint states, absolute
start time `t0`, the stored phase durations, and the stopping flag.  Mirrors
`Trajectory` in the planner source (`end` is a Lean keyword, hence `end_`). -/
structure Trajectory where
  end_ : ℝ
  state0 : internalState
  state1 : internalState
  state2 : internalState
  state3 : internalState
  state4 : internalState
  state5 : internalState
  state6 : internalState
  state7 : internalState
  t0 : ℝ
  tjStop1 : ℝ
  taStop : ℝ
  tjStop2 : ℝ
  tj : ℝ
  ta : ℝ
  tv : ℝ
  isStopping : Bool

/-- Planner configuration, mirroring `MovementPlanner`. -/
structure MovementPlanner where
  max_jerk : ℝ
  max_acceleration : ℝ
  max_velocity : ℝ

/-- Stationary trajectory at a point, mirroring `GetStationaryTrajectory`
(the Go constructor samples `time.Now()`, passed here as `t0`). -/
def GetStationaryTrajectory (point : ℝ) (t0 : ℝ) : Trajectory :=
  { end_ := point
    state0 := ⟨0, point, 0, 0, 0⟩
    state1 := ⟨0, point, 0, 0, 0⟩
    state2 := ⟨0, point, 0, 0, 0⟩
    state3 := ⟨0, point, 0, 0, 0⟩
    state4 := ⟨0, point, 0, 0, 0⟩
    state5 := ⟨0, point, 0, 0, 0⟩
    state6 := ⟨0, point, 0, 0, 0⟩
    state7 := ⟨0, point, 0, 0, 0⟩
    t0 := t0
    tjStop1 := 0
    taStop := 0
    tjStop2 := 0
    tj := 0
    ta := 0
    tv := 0
    isStopping := false }

/-- The regime selection and duration computation of
`CalculatePointToPointTrajectory`: given the planner limits and the distance
`s`, return `(tj, ta, tv)`.  The four branches mirror the Go conditional chain
for `VelocityLimited`, `JerkLimited`, `AccelerationLimitedWithMaxVelocity` and
`AccelerationLimitedWithoutMaxVelocity` (in the order the Go code tests them),
with each branch's `switch` arm inlined. -/
def p2pDurations (mpc : MovementPlanner) (s : ℝ) : ℝ × ℝ × ℝ :=
  let jerk := mpc.max_jerk
  let amax := mpc.max_acceleration
  let vmax := mpc.max_velocity
  let va := amax * amax / jerk
  let sa := 2 * amax * amax * amax / (jerk * jerk)
  let sv :=
    if vmax * jerk < amax * amax then 2 * vmax * Real.sqrt (vmax / jerk)
    else vmax * (vmax / amax + amax / jerk)
  if vmax ≤ va ∧ s > sa ∨ vmax ≤ va ∧ s ≤ sa ∧ s > sv then
    (Real.sqrt (vmax / jerk), 0, s / vmax - 2 * Real.sqrt (vmax / jerk))
  else if vmax > va ∧ s ≤ sa ∨ vmax ≤ va ∧ s ≤ sa ∧ s ≤ sv then
    (rcbrt (s / (2 * jerk)), 0, 0)
  else if vmax > va ∧ s > sa ∧ s > sv then
    (amax / jerk, vmax / amax - amax / jerk,
      s / vmax - 2 * (amax / jerk) - (vmax / amax - amax / jerk))
  else
    (amax / jerk,
      0.5 * Real.sqrt ((4 * s * jerk ^ 2 + amax ^ 3) / (amax * jerk ^ 2)) -
        1.5 * (amax / jerk),
      0)

/-- Breakpoint construction of `CalculatePointToPointTrajectory`: forward
integration of the seven phases with signed jerk `jerkS` and durations
`tj, ta, tv`; the `withJerk` wrappers record the receiver mutations that the
Go `moveStateForward` calls perform (the final state's jerk is fixed to zero
by the trailing `moveStateForward(0, 0)` call). -/
def mkP2PTrajectory (start end_ t0 jerkS tj ta tv : ℝ) : Trajectory :=
  let st0 : internalState := ⟨0, start, 0, 0, 0⟩
  let st1 := moveStateForward st0 tj jerkS
  let st2 := moveStateForward st1 ta 0
  let st3 := moveStateForward st2 tj (-jerkS)
  let st4 := moveStateForward st3 tv 0
  let st5 := moveStateForward st4 tj (-jerkS)
  let st6 := moveStateForward st5 ta 0
  let st7 := moveStateForward st6 tj jerkS
  { end_ := end_
    state0 := withJerk st0 jerkS
    state1 := withJerk st1 0
    state2 := withJerk st2 (-jerkS)
    state3 := withJerk st3 0
    state4 := withJerk st4 (-jerkS)
    state5 := withJerk st5 0
    state6 := withJerk st6 jerkS
    state7 := withJerk st7 0
    t0 := t0
    tjStop1 := 0
    taStop := 0
    tjStop2 := 0
    tj := tj
    ta := ta
    tv := tv
    isStopping := false }

/-- Point-to-point planning, mirroring `CalculatePointToPointTrajectory`
(`t0` is the `time.Now()` sampled at entry). -/
def CalculatePointToPointTrajectory
    (mpc : MovementPlanner) (start end_ : ℝ) (t0 : ℝ) : Trajectory :=
  let s := |end_ - start|
  let d := p2pDurations mpc s
  let jerkS := if start < end_ then mpc.max_jerk else -mpc.max_jerk
  mkP2PTrajectory start end_ t0 jerkS d.1 d.2.1 d.2.2

/-- Evaluation of a trajectory at relative time `t`, mirroring
`calculateStateAtTime`: before the start return the initial state, after the
final breakpoint return the final state, otherwise integrate from the
breakpoint of the first phase whose end time is not exceeded
(`calculateStateInPhase` inlined). -/
def calculateStateAtTime (T : Trajectory) (t : ℝ) : internalState :=
  if t ≤ 0 then T.state0
  else if t > T.state7.t then T.state7
  else if t ≤ T.state1.t then moveStateForward T.state0 (t - T.state0.t) T.state0.j
  else if t ≤ T.state2.t then moveStateForward T.state1 (t - T.state1.t) T.state1.j
  else if t ≤ T.state3.t then moveStateForward T.state2 (t - T.state2.t) T.state2.j
  else if t ≤ T.state4.t then moveStateForward T.state3 (t - T.state3.t) T.state3.j
  else if t ≤ T.state5.t then moveStateForward T.state4 (t - T.state4.t) T.state4.j
  else if t ≤ T.state6.t then moveStateForward T.state5 (t - T.state5.t) T.state5.j
  else if t ≤ T.state7.t then moveStateForward T.state6 (t - T.state6.t) T.state6.j
  else T.state7

/-- Mirrors `Trajectory.IsFinished` at wall-clock instant `now`. -/
def IsFinished (T : Trajectory) (now : ℝ) : Prop :=
  now - T.t0 ≥ T.state7.t

instance instDecidableIsFinished (T : Trajectory) (now : ℝ) :
    Decidable (IsFinished T now) :=
  inferInstanceAs (Decidable (now - T.t0 ≥ T.state7.t))

/-- Mirrors `Trajectory.GetCurrentPosition` at wall-clock instant `now`. -/
def GetCurrentPosition (T : Trajectory) (now : ℝ) : ℝ :=
  (calculateStateAtTime T (now - T.t0)).p

/-- Stopping-phase duration selection of
`calculateStoppingTrajectoryFromStoppingTrajectory`: given the elapsed time
`pt` on the interrupted stopping trajectory, return `(tjStop1, taStop,
tjStop2)` for the new one.  Note that the middle and final components of the
non-finished branches read the *stored* `taStop` / `tjStop2` fields of the
previous trajectory. -/
def stopStopDurations (prev : Trajectory) (pt : ℝ) : ℝ × ℝ × ℝ :=
  if pt ≤ prev.state1.t then (prev.state1.t - pt, prev.taStop, prev.tjStop2)
  else if pt ≤ prev.state2.t then (0, prev.state2.t - pt, prev.tjStop2)
  else if pt ≤ prev.state3.t then (0, 0, prev.state3.t - pt)
  else (0, 0, 0)

/-- Breakpoint construction shared by both stopping constructors: sample the
previous trajectory at the elapsed time, zero the sample's relative time,
choose the braking jerk opposite to the current velocity, and integrate the
three braking phases; the five trailing breakpoints all hold the final state.
The Go struct literal sets `tjStop1` and `tjStop2` but *omits* `taStop`, which
therefore holds the Go zero value. -/
def mkStoppingTrajectory
    (mpc : MovementPlanner) (prev : Trajectory) (now : ℝ) (d : ℝ × ℝ × ℝ) :
    Trajectory :=
  let pt := now - prev.t0
  let s0 := withTimeZero (calculateStateAtTime prev pt)
  let jStop := if s0.v > 0 then mpc.max_jerk else -mpc.max_jerk
  let s1 := moveStateForward s0 d.1 (-jStop)
  let s2 := moveStateForward s1 d.2.1 0
  let s3 := moveStateForward s2 d.2.2 jStop
  { end_ := s3.p
    state0 := withJerk s0 (-jStop)
    state1 := withJerk s1 0
    state2 := withJerk s2 jStop
    state3 := withJerk s3 0
    state4 := withJerk s3 0
    state5 := withJerk s3 0
    state6 := withJerk s3 0
    state7 := withJerk s3 0
    t0 := now
    tjStop1 := d.1
    taStop := 0
    tjStop2 := d.2.2
    tj := 0
    ta := 0
    tv := 0
    isStopping := true }

/-- Mirrors `calculateStoppingTrajectoryFromStoppingTrajectory`. -/
def calculateStoppingTrajectoryFromStoppingTrajectory
    (mpc : MovementPlanner) (prev : Trajectory) (now : ℝ) : Trajectory :=
  mkStoppingTrajectory mpc prev now (stopStopDurations prev (now - prev.t0))

/-- Stopping-phase duration selection of
`calculateStoppingTrajectoryFromPointToPointTrajectory`, one branch per
interrupted source phase. -/
def stopP2PDurations (prev : Trajectory) (pt : ℝ) : ℝ × ℝ × ℝ :=
  if pt ≤ prev.state1.t then (2 * pt, 0, pt)
  else if pt ≤ prev.state2.t then (2 * prev.tj, pt - prev.state1.t, prev.tj)
  else if pt ≤ prev.state3.t then (prev.state3.t - pt + prev.tj, prev.ta, prev.tj)
  else if pt ≤ prev.state4.t then (prev.tj, prev.ta, prev.tj)
  else if pt ≤ prev.state5.t then (prev.state5.t - pt, prev.ta, prev.tj)
  else if pt ≤ prev.state6.t then (0, prev.state6.t - pt, prev.tj)
  else if pt ≤ prev.state7.t then (0, 0, prev.state7.t - pt)
  else (0, 0, 0)

/-- Mirrors `calculateStoppingTrajectoryFromPointToPointTrajectory`. -/
def calculateStoppingTrajectoryFromPointToPointTrajectory
    (mpc : MovementPlanner) (prev : Trajectory) (now : ℝ) : Trajectory :=
  mkStoppingTrajectory mpc prev now (stopP2PDurations prev (now - prev.t0))

/-- Mirrors `CalculateStoppingTrajectory`: dispatch on the stopping flag. -/
def CalculateStoppingTrajectory
    (mpc : MovementPlanner) (prev : Trajectory) (now : ℝ) : Trajectory :=
  if prev.isStopping then
    calculateStoppingTrajectoryFromStoppingTrajectory mpc prev now
  else
    calculateStoppingTrajectoryFromPointToPointTrajectory mpc prev now

/-! ## PID cascade

The live PID variant of `src/unnamed/part_001` (the one whose five-argument
constructor `NewPID(kp, ki, kd, sampleTime, maxOutput)` matches the calls
`NewPID(150, 10, 0, 0.01, 150)` and `NewPID(100, 0, 0, 0.01, 300)` in
`NewController`). -/

/-- Mirrors the live `PID` struct. -/
structure PID where
  Kp : ℝ
  Ki : ℝ
  Kd : ℝ
  PreviousError : ℝ
  Integral : ℝ
  Setpoint : ℝ
  Output : ℝ
  SampleTime : ℝ
  MaxOutput : ℝ

/-- Mirrors `NewPID`; the omitted struct fields hold the Go zero value. -/
def NewPID (kp ki kd sampleTime maxOutput : ℝ) : PID :=
  { Kp := kp
    Ki := ki
    Kd := kd
    PreviousError := 0
    Integral := 0
    Setpoint := 0
    Output := 0
    SampleTime := sampleTime
    MaxOutput := maxOutput }

/-- Mirrors `PID.Update`: returns the mutated controller and the returned
output. -/
def PID.Update (pid : PID) (input : ℝ) : PID × ℝ :=
  let err := pid.Setpoint - input
  let integral := pid.Integral + err * pid.SampleTime
  let derivative := (err - pid.PreviousError) / pid.SampleTime
  let output0 := pid.Kp * err + pid.Ki * integral + pid.Kd * derivative
  let output :=
    if output0 > pid.MaxOutput then pid.MaxOutput
    else if output0 < -pid.MaxOutput then -pid.MaxOutput
    else output0
  ({ pid with Integral := integral, Output := output, PreviousError := err },
    output)

/-- Mirrors `PID.SetSetpoint` of the live variant: it stores the setpoint and
nothing else (the reset of `PreviousError` is commented out in the source, and
no reset of `Integral` is present). -/
def PID.SetSetpoint (pid : PID) (setpoint : ℝ) : PID :=
  { pid with Setpoint := setpoint }

/-! ## Messages, controller state, and effects -/

/-- Request kinds; modelled from the spec: `type ∈ {BorderMove,
EmergencyStop}` (the Go declaration of this enum is not under `src/`; its
constructors are pinned down by the uses in `src/controller.go`). -/
inductive RequestType where
  | BORDER_MOVE
  | EMERGENCY_STOP
deriving DecidableEq

/-- Response kinds; modelled from the spec: `type ∈ {Accept, Reject, Wait,
StopConfirm}` (same provenance note as `RequestType`). -/
inductive ResponseType where
  | ACCEPT
  | REJECT
  | WAIT
  | STOP_CONFIRM
deriving DecidableEq

/-- Wire request, mirroring the spec wire structure and the uses in
`src/controller.go` (`Type` is a Lean keyword, hence `rtype`). -/
structure Request where
  RequestId : Int
  rtype : RequestType
  ProposedBorderStart : ℝ
  ProposedBorderEnd : ℝ

/-- Wire response. -/
structure Response where
  RequestId : Int
  rtype : ResponseType

/-- Mirrors `Side` in `src/controller.go`. -/
inductive Side where
  | Left
  | Right
deriving DecidableEq

/-- Mirrors `State` in `src/controller.go`. -/
inductive State where
  | Idle
  | Moving
  | Requesting
  | Avoiding
  | Busy
  | Stopping
deriving DecidableEq

/-- Mirrors `EmergencyStopConfirmation`; the stored response channel is
modelled by the side it belongs to. -/
structure EmergencyStopConfirmation where
  RequestId : Int
  outgoingResponse : Side

/-- Mirrors `RequestParameters`.  The stored trajectory-update closure is
modelled by the side of the border it sets, and the stored response channel by
its side. -/
structure RequestParameters where
  goal : ℝ
  request : Request
  retryTime : Int
  acceptState : State
  originalRequest : Option Request
  originalTrajectory : Option Trajectory
  originalUpdateTrajectory : Option Side
  originalOutgoingResponse : Option Side

/-- Observable channel traffic of a handler invocation. -/
inductive Effect where
  | sendRequest (side : Side) (r : Request)
  | sendResponse (side : Side) (r : Response)
  | reportGoalCompletion

/-- The controller fields that the modelled handlers read or write, mirroring
`Controller` in `src/controller.go`.  Outgoing channels are modelled by
presence flags (`false` = `nil`, the hard wall).  The PID, cart, metrics,
logger, busy-timer and inbound-channel fields play no part in the handlers
modelled here and are omitted. -/
structure Controller where
  LeftBorderTrajectory : Trajectory
  RightBorderTrajectory : Trajectory
  CurrentTrajectory : Trajectory
  state : State
  GoalTimestamp : Int
  planner : MovementPlanner
  safetyMargin : ℝ
  PendingRequests : List (Int × RequestParameters)
  PendingEmergencyStopConfirmation : Option EmergencyStopConfirmation
  pendingGoalAfterStop : Option ℝ
  hasOutgoingLeftRequest : Bool
  hasOutgoingRightRequest : Bool
  hasOutgoingLeftResponse : Bool
  hasOutgoingRightResponse : Bool

/-- A `time.Now()` reading: `sec` is the reading used for trajectory
evaluation (`time.Since(t0).Seconds()`), `ns` the `UnixNano()` reading used
for request ids and retry deadlines. -/
structure Clock where
  sec : ℝ
  ns : Int

/-- Map update on the association list modelling the Go `PendingRequests`
map: replace any binding of the key, keep the others. -/
def mapInsert (m : List (Int × RequestParameters)) (k : Int)
    (v : RequestParameters) : List (Int × RequestParameters) :=
  (k, v) :: m.filter (fun kv => kv.1 ≠ k)

/-- Whether the controller has the outgoing request channel on a side. -/
def Controller.hasOutgoingRequest (c : Controller) : Side → Bool
  | Side.Left => c.hasOutgoingLeftRequest
  | Side.Right => c.hasOutgoingRightRequest

/-- Whether the controller has the outgoing response channel on a side. -/
def Controller.hasOutgoingResponse (c : Controller) : Side → Bool
  | Side.Left => c.hasOutgoingLeftResponse
  | Side.Right => c.hasOutgoingRightResponse

/-- Set the border trajectory on a side; this is the closure
`func(t *Trajectory) { c.LeftBorderTrajectory = t }` (resp. right) passed to
`handleBorderMove` and stored on forwarded pending requests. -/
def Controller.setBorderTrajectory (c : Controller) :
    Side → Trajectory → Controller
  | Side.Left, T => { c with LeftBorderTrajectory := T }
  | Side.Right, T => { c with RightBorderTrajectory := T }

/-! ## Controller handlers -/

/-- Mirrors `Controller.rejectGoal`: transition to `Idle`, report completion
(the Go nonblocking send is modelled as always delivered). -/
def rejectGoal (c : Controller) : Controller × List Effect :=
  ({ c with state := State.Idle }, [Effect.reportGoalCompletion])

/-- Mirrors `Controller.acceptGoal`: set the accept state, record the goal
timestamp, and replace the current trajectory by a point-to-point plan from
the current trajectory position to the goal. -/
def acceptGoal (c : Controller) (goal : ℝ) (goalTimestamp : Int)
    (acceptState : State) (γ : Clock) : Controller :=
  { c with
    state := acceptState
    GoalTimestamp := goalTimestamp
    CurrentTrajectory :=
      CalculatePointToPointTrajectory c.planner
        (GetCurrentPosition c.CurrentTrajectory γ.sec) goal γ.sec }

/-- Mirrors `Controller.acceptRequest`: plan the border to the proposed end
from the position of the trajectory snapshot passed in, install it via the
update closure, and answer `ACCEPT`. -/
def acceptRequest (c : Controller) (updSide : Side)
    (originalTrajectory : Trajectory) (respSide : Side) (request : Request)
    (γ : Clock) : Controller × List Effect :=
  let trajectory :=
    CalculatePointToPointTrajectory c.planner
      (GetCurrentPosition originalTrajectory γ.sec) request.ProposedBorderEnd
      γ.sec
  (c.setBorderTrajectory updSide trajectory,
    [Effect.sendResponse respSide ⟨request.RequestId, ResponseType.ACCEPT⟩])

/-- Mirrors `Controller.rejectRequest`. -/
def rejectRequest (respSide : Side) (request : Request) : List Effect :=
  [Effect.sendResponse respSide ⟨request.RequestId, ResponseType.REJECT⟩]

/-- Mirrors `Controller.postponeRequest`. -/
def postponeRequest (respSide : Side) (request : Request) : List Effect :=
  [Effect.sendResponse respSide ⟨request.RequestId, ResponseType.WAIT⟩]

/-- Mirrors the `trySendRequest` helper inside
`Controller.queueBorderMoveRequest`, specialised to one side. -/
def trySendBorderMoveRequest (c : Controller) (goal : ℝ) (goalTimestamp : Int)
    (acceptState : State) (oldRequestId : Option Int)
    (originalRequest : Option Request) (originalUpdateTrajectory : Option Side)
    (originalTrajectory : Option Trajectory)
    (originalOutgoingResponse : Option Side) (side : Side)
    (start end_ : ℝ) (γ : Clock) : Controller × List Effect :=
  if c.hasOutgoingRequest side = false then
    let (c1, e1) := rejectGoal c
    match originalRequest with
    | some orig =>
      match originalOutgoingResponse with
      | some respSide => (c1, e1 ++ rejectRequest respSide orig)
      | none => (c1, e1)
    | none => (c1, e1)
  else
    let requestId :=
      match oldRequestId with
      | some rid => rid
      | none =>
        match originalRequest with
        | some orig => orig.RequestId
        | none => goalTimestamp
    let request : Request :=
      { RequestId := requestId
        rtype := RequestType.BORDER_MOVE
        ProposedBorderStart := start
        ProposedBorderEnd := end_ }
    let params : RequestParameters :=
      { goal := goal
        request := request
        retryTime := γ.ns + 1000000000
        acceptState := acceptState
        originalRequest := originalRequest
        originalTrajectory := originalTrajectory
        originalUpdateTrajectory := originalUpdateTrajectory
        originalOutgoingResponse := originalOutgoingResponse }
    ({ c with PendingRequests := mapInsert c.PendingRequests requestId params },
      [Effect.sendRequest side request])

/-- Mirrors `Controller.queueBorderMoveRequest`: enter `Requesting`, pick the
side whose border must yield, and try to send the request there (the final
`else` of the Go code only logs an error and changes nothing). -/
def queueBorderMoveRequest (c : Controller) (goal : ℝ) (goalTimestamp : Int)
    (acceptState : State) (oldRequestId : Option Int)
    (originalRequest : Option Request) (originalUpdateTrajectory : Option Side)
    (originalTrajectory : Option Trajectory)
    (originalOutgoingResponse : Option Side) (γ : Clock) :
    Controller × List Effect :=
  let c1 := { c with state := State.Requesting }
  if c.LeftBorderTrajectory.end_ + c.safetyMargin ≥ goal then
    trySendBorderMoveRequest c1 goal goalTimestamp acceptState oldRequestId
      originalRequest originalUpdateTrajectory originalTrajectory
      originalOutgoingResponse Side.Left c.LeftBorderTrajectory.end_
      (goal - 1.01 * c.safetyMargin) γ
  else if c.RightBorderTrajectory.end_ - c.safetyMargin ≤ goal then
    trySendBorderMoveRequest c1 goal goalTimestamp acceptState oldRequestId
      originalRequest originalUpdateTrajectory originalTrajectory
      originalOutgoingResponse Side.Right c.RightBorderTrajectory.end_
      (goal + 1.01 * c.safetyMargin) γ
  else
    (c1, [])

/-- Mirrors `Controller.handleGoalRequestWithOriginal`: accept the goal when
it lies strictly within both borders with the safety margin, otherwise queue
a border-move request (the goal timestamp is the `time.Now().UnixNano()`
sampled at entry, i.e. `γ.ns`). -/
def handleGoalRequestWithOriginal (c : Controller) (goal : ℝ)
    (acceptState : State) (originalRequest : Option Request)
    (originalUpdateTrajectory : Option Side)
    (originalTrajectory : Option Trajectory)
    (originalOutgoingResponse : Option Side) (γ : Clock) :
    Controller × List Effect :=
  let goalTimestamp := γ.ns
  if c.LeftBorderTrajectory.end_ + c.safetyMargin < goal ∧
      goal < c.RightBorderTrajectory.end_ - c.safetyMargin then
    (acceptGoal c goal goalTimestamp acceptState γ, [])
  else
    queueBorderMoveRequest c goal goalTimestamp acceptState none
      originalRequest originalUpdateTrajectory originalTrajectory
      originalOutgoingResponse γ

/-- Mirrors `Controller.handleGoalRequest`. -/
def handleGoalRequest (c : Controller) (goal : ℝ) (acceptState : State)
    (γ : Clock) : Controller × List Effect :=
  handleGoalRequestWithOriginal c goal acceptState none none none none γ

/-- Mirrors `Controller.executeEmergencyStop`: replace the current trajectory
by its stopping trajectory, enter `Stopping`, freeze border trajectories that
the stop would violate or whose owning neighbor is itself stopping, drop all
pending requests that are not emergency stops, and send any owed stop
confirmation. -/
def executeEmergencyStop (c : Controller) (γ : Clock) :
    Controller × List Effect :=
  let hypotheticalStopTrajectory :=
    CalculateStoppingTrajectory c.planner c.CurrentTrajectory γ.sec
  let finalStopPosition := hypotheticalStopTrajectory.end_
  let leftBorderEnd := c.LeftBorderTrajectory.end_
  let rightBorderEnd := c.RightBorderTrajectory.end_
  let violatesLeftBorder :=
    decide (finalStopPosition < leftBorderEnd + c.safetyMargin)
  let violatesRightBorder :=
    decide (finalStopPosition > rightBorderEnd - c.safetyMargin)
  let neighborStoppingLeft : Bool :=
    match c.PendingEmergencyStopConfirmation with
    | some conf => conf.outgoingResponse = Side.Left
    | none => false
  let neighborStoppingRight : Bool :=
    match c.PendingEmergencyStopConfirmation with
    | some conf => conf.outgoingResponse = Side.Right
    | none => false
  let c1 :=
    { c with
      state := State.Stopping
      CurrentTrajectory :=
        CalculateStoppingTrajectory c.planner c.CurrentTrajectory γ.sec }
  let c2 :=
    if (violatesLeftBorder || neighborStoppingLeft) &&
        ! decide (IsFinished c.LeftBorderTrajectory γ.sec) then
      { c1 with
        LeftBorderTrajectory :=
          CalculateStoppingTrajectory c.planner c.LeftBorderTrajectory γ.sec }
    else c1
  let c3 :=
    if (violatesRightBorder || neighborStoppingRight) &&
        ! decide (IsFinished c.RightBorderTrajectory γ.sec) then
      { c2 with
        RightBorderTrajectory :=
          CalculateStoppingTrajectory c.planner c.RightBorderTrajectory γ.sec }
    else c2
  let c4 :=
    { c3 with
      PendingRequests :=
        c3.PendingRequests.filter
          (fun kv => kv.2.request.rtype = RequestType.EMERGENCY_STOP) }
  match c4.PendingEmergencyStopConfirmation with
  | some conf =>
    ({ c4 with PendingEmergencyStopConfirmation := none },
      [Effect.sendResponse conf.outgoingResponse
        ⟨conf.RequestId, ResponseType.STOP_CONFIRM⟩])
  | none => (c4, [])

/-- The `pendingGoalRequiresLeftExpansion` check of
`Controller.sendEmergencyStopRequestsAndWait` (false when no pending-after-stop
goal is stored). -/
def pendingGoalRequiresLeftExpansion (c : Controller) : Bool :=
  match c.pendingGoalAfterStop with
  | some goal => c.LeftBorderTrajectory.end_ + c.safetyMargin ≥ goal
  | none => false

/-- The `pendingGoalRequiresRightExpansion` check of
`Controller.sendEmergencyStopRequestsAndWait`. -/
def pendingGoalRequiresRightExpansion (c : Controller) : Bool :=
  match c.pendingGoalAfterStop with
  | some goal => c.RightBorderTrajectory.end_ - c.safetyMargin ≤ goal
  | none => false

/-- The guard under which `sendEmergencyStopRequestsAndWait` sends an
`EMERGENCY_STOP` request to the left neighbor: the hypothetical stop position
violates the left border (with margin) or the pending-after-stop goal requires
left expansion, and the outgoing left request channel exists. -/
def eStopDoLeft (c : Controller) (γ : Clock) : Bool :=
  (decide ((CalculateStoppingTrajectory c.planner c.CurrentTrajectory
        γ.sec).end_ < c.LeftBorderTrajectory.end_ + c.safetyMargin) ||
    pendingGoalRequiresLeftExpansion c) && c.hasOutgoingLeftRequest

/-- The corresponding right-neighbor guard of
`sendEmergencyStopRequestsAndWait`. -/
def eStopDoRight (c : Controller) (γ : Clock) : Bool :=
  (decide ((CalculateStoppingTrajectory c.planner c.CurrentTrajectory
        γ.sec).end_ > c.RightBorderTrajectory.end_ - c.safetyMargin) ||
    pendingGoalRequiresRightExpansion c) && c.hasOutgoingRightRequest

/-- Mirrors `Controller.sendEmergencyStopRequestsAndWait`: compute the
hypothetical stop position, send an `EMERGENCY_STOP` request to each neighbor
whose border would be violated or whom the pending-after-stop goal will need
(if the channel exists), and either wait in `Requesting` or stop immediately.
The two `time.Now().UnixNano()` request ids are modelled as `γ.ns` (left) and
`γ.ns + 1` (right). -/
def sendEmergencyStopRequestsAndWait (c : Controller) (γ : Clock) :
    Controller × List Effect :=
  let doLeft := eStopDoLeft c γ
  let doRight := eStopDoRight c γ
  let leftRequest : Request :=
    { RequestId := γ.ns
      rtype := RequestType.EMERGENCY_STOP
      ProposedBorderStart := 0
      ProposedBorderEnd := 0 }
  let rightRequest : Request :=
    { RequestId := γ.ns + 1
      rtype := RequestType.EMERGENCY_STOP
      ProposedBorderStart := 0
      ProposedBorderEnd := 0 }
  let estopParams : Request → RequestParameters := fun r =>
    { goal := 0
      request := r
      retryTime := γ.ns + 1000000000
      acceptState := State.Stopping
      originalRequest := none
      originalTrajectory := none
      originalUpdateTrajectory := none
      originalOutgoingResponse := none }
  let (c1, e1) :=
    if doLeft then
      ({ c with
          PendingRequests :=
            mapInsert c.PendingRequests γ.ns (estopParams leftRequest) },
        [Effect.sendRequest Side.Left leftRequest])
    else (c, ([] : List Effect))
  let (c2, e2) :=
    if doRight then
      ({ c1 with
          PendingRequests :=
            mapInsert c1.PendingRequests (γ.ns + 1)
              (estopParams rightRequest) },
        [Effect.sendRequest Side.Right rightRequest])
    else (c1, ([] : List Effect))
  if doLeft || doRight then
    ({ c2 with state := State.Requesting }, e1 ++ e2)
  else
    executeEmergencyStop c γ

/-- Mirrors `Controller.handleEmergencyStop`. -/
def handleEmergencyStop (c : Controller) (γ : Clock) :
    Controller × List Effect :=
  sendEmergencyStopRequestsAndWait c γ

/-- Mirrors `Controller.handleIncomingEmergencyStopRequest`: record the owed
confirmation, install a synthetic anticipation goal on the opposite side, run
the emergency-stop procedure, and clear the synthetic goal again. -/
def handleIncomingEmergencyStopRequest (c : Controller) (request : Request)
    (side : Side) (γ : Clock) : Controller × List Effect :=
  let c1 :=
    if c.hasOutgoingResponse side then
      { c with
        PendingEmergencyStopConfirmation :=
          some ⟨request.RequestId, side⟩ }
    else c
  let anticipateRightExpansion := side = Side.Left
  let anticipateLeftExpansion := side = Side.Right
  let c2 :=
    if anticipateLeftExpansion then
      { c1 with
        pendingGoalAfterStop :=
          some (c.LeftBorderTrajectory.end_ - c.safetyMargin - 50) }
    else
      { c1 with
        pendingGoalAfterStop :=
          some (c.RightBorderTrajectory.end_ + c.safetyMargin + 50) }
  let r := handleEmergencyStop c2 γ
  let c4 :=
    if anticipateLeftExpansion ∨ anticipateRightExpansion then
      { r.1 with pendingGoalAfterStop := none }
    else r.1
  (c4, r.2)

/-- Mirrors `Controller.tryToGiveWay`. -/
def tryToGiveWay (c : Controller) (updSide : Side)
    (originalTrajectory : Trajectory) (respSide : Side) (request : Request)
    (side : Side) (γ : Clock) : Controller × List Effect :=
  let avoidanceGoal :=
    match side with
    | Side.Left => request.ProposedBorderEnd + 1.01 * c.safetyMargin
    | Side.Right => request.ProposedBorderEnd - 1.01 * c.safetyMargin
  if c.state = State.Idle ∨ c.state = State.Requesting then
    if c.LeftBorderTrajectory.end_ + c.safetyMargin < avoidanceGoal ∧
        avoidanceGoal < c.RightBorderTrajectory.end_ - c.safetyMargin then
      let (c1, e1) := handleGoalRequest c avoidanceGoal State.Avoiding γ
      let (c2, e2) :=
        acceptRequest c1 updSide originalTrajectory respSide request γ
      (c2, e1 ++ e2)
    else
      handleGoalRequestWithOriginal c avoidanceGoal State.Avoiding
        (some request) (some updSide) (some originalTrajectory)
        (some respSide) γ
  else
    (c, postponeRequest respSide request)

/-- Mirrors `Controller.handleBorderMove`. -/
def handleBorderMove (c : Controller) (acceptImmediately : Bool)
    (updSide : Side) (originalTrajectory : Trajectory) (respSide : Side)
    (request : Request) (side : Side) (γ : Clock) : Controller × List Effect :=
  if acceptImmediately then
    acceptRequest c updSide originalTrajectory respSide request γ
  else
    tryToGiveWay c updSide originalTrajectory respSide request side γ

/-- The pending-request conflict scan at the top of
`handleIncomingBorderMoveRequest`: find the first pending `BORDER_MOVE`
request whose goal needs the border toward `side`, and return
`(hasConflictingRequest, shouldDeferToNeighbor)` (the Go map iteration order
is modelled as list order). -/
def scanPendingConflict (c : Controller) (request : Request) (side : Side) :
    List (Int × RequestParameters) → Bool × Bool
  | [] => (false, false)
  | kv :: rest =>
    if kv.2.request.rtype = RequestType.BORDER_MOVE ∧
        ((side = Side.Left ∧
            c.LeftBorderTrajectory.end_ + c.safetyMargin ≥ kv.2.goal) ∨
          (side = Side.Right ∧
            c.RightBorderTrajectory.end_ - c.safetyMargin ≤ kv.2.goal)) then
      (true, decide (request.RequestId > kv.2.request.RequestId))
    else
      scanPendingConflict c request side rest

/-- The current-motion conflict check of `handleIncomingBorderMoveRequest`
(the second Go if-block, which overrides the pending-request scan): when the
receiver is moving or avoiding toward the requesting side, `some d` with `d`
the tie-break against the receiver's goal timestamp; otherwise `none`. -/
def bmMovingConflict (c : Controller) (request : Request) (side : Side) :
    Option Bool :=
  if c.state = State.Moving ∨ c.state = State.Avoiding then
    if side = Side.Left ∧
        c.CurrentTrajectory.end_ - c.safetyMargin <
          request.ProposedBorderEnd then
      some (decide (request.RequestId > c.GoalTimestamp))
    else if side = Side.Right ∧
        c.CurrentTrajectory.end_ + c.safetyMargin >
          request.ProposedBorderEnd then
      some (decide (request.RequestId > c.GoalTimestamp))
    else none
  else none

/-- The `hasConflictingRequest` local of `handleIncomingBorderMoveRequest`:
true when the current motion conflicts, else what the pending scan found. -/
def hasConflictingRequest (c : Controller) (request : Request)
    (side : Side) : Bool :=
  match bmMovingConflict c request side with
  | some _ => true
  | none => (scanPendingConflict c request side c.PendingRequests).1

/-- The `shouldDeferToNeighbor` local of `handleIncomingBorderMoveRequest`:
the current-motion tie-break when the motion conflicts, else the pending
scan's. -/
def shouldDeferToNeighbor (c : Controller) (request : Request)
    (side : Side) : Bool :=
  match bmMovingConflict c request side with
  | some d => d
  | none => (scanPendingConflict c request side c.PendingRequests).2

/-- Mirrors `Controller.handleIncomingBorderMoveRequest`. -/
def handleIncomingBorderMoveRequest (c : Controller) (request : Request)
    (side : Side) (γ : Clock) : Controller × List Effect :=
  match side with
  | Side.Left =>
    let acceptImmediately :=
      decide (request.ProposedBorderEnd <
          c.CurrentTrajectory.end_ - c.safetyMargin) &&
        (!hasConflictingRequest c request side ||
          shouldDeferToNeighbor c request side)
    if hasConflictingRequest c request side ∧
        shouldDeferToNeighbor c request side ∧
        (c.state = State.Moving ∨ c.state = State.Avoiding) then
      let (c1, e1) := handleEmergencyStop c γ
      (c1, e1 ++ postponeRequest Side.Left request)
    else if hasConflictingRequest c request side ∧
        ¬ shouldDeferToNeighbor c request side then
      (c, rejectRequest Side.Left request)
    else
      handleBorderMove c acceptImmediately Side.Left c.LeftBorderTrajectory
        Side.Left request side γ
  | Side.Right =>
    let acceptImmediately :=
      decide (request.ProposedBorderEnd >
          c.CurrentTrajectory.end_ + c.safetyMargin) &&
        (!hasConflictingRequest c request side ||
          shouldDeferToNeighbor c request side)
    if hasConflictingRequest c request side ∧
        shouldDeferToNeighbor c request side ∧
        (c.state = State.Moving ∨ c.state = State.Avoiding) then
      let (c1, e1) := handleEmergencyStop c γ
      (c1, e1 ++ postponeRequest Side.Right request)
    else if hasConflictingRequest c request side ∧
        ¬ shouldDeferToNeighbor c request side then
      (c, postponeRequest Side.Right request)
    else
      handleBorderMove c acceptImmediately Side.Right c.RightBorderTrajectory
        Side.Right request side γ

/-! ## Concrete fixtures

Concrete trajectories produced by the planner code at the default limits
`NewMovementPlanner(200, 100, 300)` of `NewController`, used as explicit
inputs for the claims: a point-to-point plan 0 → 1200 started at wall-clock 0,
the stop interrupting it at wall-clock 1 (during its constant-acceleration
phase), and the further stop interrupting that one at wall-clock 1.5 (during
its first braking phase). -/

/-- The planner configuration `NewMovementPlanner(200, 100, 300)` used by
`NewController`. -/
def mpcDefault : MovementPlanner := ⟨200, 100, 300⟩

/-- Point-to-point plan from 0 to 1200 at the default limits, started at
wall-clock time 0. -/
def exP2P : Trajectory := CalculatePointToPointTrajectory mpcDefault 0 1200 0

/-- Stop of `exP2P` requested at wall-clock time 1 (source phase 2). -/
def exStop1 : Trajectory := CalculateStoppingTrajectory mpcDefault exP2P 1

/-- Stop of `exStop1` requested at wall-clock time 1.5 (source phase 1). -/
def exStop2 : Trajectory :=
  CalculateStoppingTrajectory mpcDefault exStop1 (3 / 2)

/-- Baseline controller fixture, matching Cart 1 of `main`
(`NewController(&carts[0], 0, 800)`, cart position 400, safety margin 30,
planner limits `NewMovementPlanner(200, 100, 300)`), stationary with both
neighbors connected; claims vary its fields by record update. -/
def cBase : Controller :=
  { LeftBorderTrajectory := GetStationaryTrajectory 0 0
    RightBorderTrajectory := GetStationaryTrajectory 800 0
    CurrentTrajectory := GetStationaryTrajectory 400 0
    state := State.Idle
    GoalTimestamp := 0
    planner := mpcDefault
    safetyMargin := 30
    PendingRequests := []
    PendingEmergencyStopConfirmation := none
    pendingGoalAfterStop := none
    hasOutgoingLeftRequest := true
    hasOutgoingRightRequest := true
    hasOutgoingLeftResponse := true
    hasOutgoingRightResponse := true }

/-- A pending `BORDER_MOVE` map entry with request id `p` and goal `g` (the
remaining parameters play no part in the conflict scan). -/
def pendEntry (p : Int) (g : ℝ) : RequestParameters :=
  ⟨g, ⟨p, RequestType.BORDER_MOVE, 0, 0⟩, 0, State.Moving, none, none, none,
    none⟩

/-- A cart whose hypothetical stop position (20) violates the left border
`0 + 30`, with both neighbor channels present. -/
def cViol : Controller :=
  { cBase with CurrentTrajectory := GetStationaryTrajectory 20 0 }

/-- The same cart with a nil left request channel: the violated side is a
hard wall. -/
def cWallL : Controller :=
  { cBase with
    CurrentTrajectory := GetStationaryTrajectory 20 0
    hasOutgoingLeftRequest := false }

/-- A cart whose hypothetical stop position (790) violates the right border
`800 - 30`, with a nil right request channel. -/
def cWallR : Controller :=
  { cBase with
    CurrentTrajectory := GetStationaryTrajectory 790 0
    hasOutgoingRightRequest := false }

/-! ## Planner bound lemmas (towards C3) -/

theorem rcbrt_nonneg (x : ℝ) (hx : 0 ≤ x) : 0 ≤ rcbrt x :=
  Real.rpow_nonneg hx _

theorem rcbrt_cube (x : ℝ) (hx : 0 ≤ x) : rcbrt x ^ 3 = x := by
  rw [rcbrt, ← Real.rpow_natCast (x ^ ((1 : ℝ) / 3)) 3, ← Real.rpow_mul hx]
  norm_num

/-- Piecewise form of the jerk component of `calculateStateAtTime`. -/
theorem calculateStateAtTime_j (T : Trajectory) (t : ℝ) :
    (calculateStateAtTime T t).j =
      if t ≤ 0 then T.state0.j
      else if t > T.state7.t then T.state7.j
      else if t ≤ T.state1.t then T.state0.j
      else if t ≤ T.state2.t then T.state1.j
      else if t ≤ T.state3.t then T.state2.j
      else if t ≤ T.state4.t then T.state3.j
      else if t ≤ T.state5.t then T.state4.j
      else if t ≤ T.state6.t then T.state5.j
      else if t ≤ T.state7.t then T.state6.j
      else T.state7.j := by
  rw [calculateStateAtTime]
  simp only [apply_ite internalState.j, moveStateForward]

/-- Piecewise form of the acceleration component of `calculateStateAtTime`. -/
theorem calculateStateAtTime_a (T : Trajectory) (t : ℝ) :
    (calculateStateAtTime T t).a =
      if t ≤ 0 then T.state0.a
      else if t > T.state7.t then T.state7.a
      else if t ≤ T.state1.t then T.state0.a + T.state0.j * (t - T.state0.t)
      else if t ≤ T.state2.t then T.state1.a + T.state1.j * (t - T.state1.t)
      else if t ≤ T.state3.t then T.state2.a + T.state2.j * (t - T.state2.t)
      else if t ≤ T.state4.t then T.state3.a + T.state3.j * (t - T.state3.t)
      else if t ≤ T.state5.t then T.state4.a + T.state4.j * (t - T.state4.t)
      else if t ≤ T.state6.t then T.state5.a + T.state5.j * (t - T.state5.t)
      else if t ≤ T.state7.t then T.state6.a + T.state6.j * (t - T.state6.t)
      else T.state7.a := by
  rw [calculateStateAtTime]
  simp only [apply_ite internalState.a, moveStateForward]

/-- Piecewise form of the velocity component of `calculateStateAtTime`. -/
theorem calculateStateAtTime_v (T : Trajectory) (t : ℝ) :
    (calculateStateAtTime T t).v =
      if t ≤ 0 then T.state0.v
      else if t > T.state7.t then T.state7.v
      else if t ≤ T.state1.t then T.state0.v + T.state0.a * (t - T.state0.t) +
        0.5 * T.state0.j * (t - T.state0.t) * (t - T.state0.t)
      else if t ≤ T.state2.t then T.state1.v + T.state1.a * (t - T.state1.t) +
        0.5 * T.state1.j * (t - T.state1.t) * (t - T.state1.t)
      else if t ≤ T.state3.t then T.state2.v + T.state2.a * (t - T.state2.t) +
        0.5 * T.state2.j * (t - T.state2.t) * (t - T.state2.t)
      else if t ≤ T.state4.t then T.state3.v + T.state3.a * (t - T.state3.t) +
        0.5 * T.state3.j * (t - T.state3.t) * (t - T.state3.t)
      else if t ≤ T.state5.t then T.state4.v + T.state4.a * (t - T.state4.t) +
        0.5 * T.state4.j * (t - T.state4.t) * (t - T.state4.t)
      else if t ≤ T.state6.t then T.state5.v + T.state5.a * (t - T.state5.t) +
        0.5 * T.state5.j * (t - T.state5.t) * (t - T.state5.t)
      else if t ≤ T.state7.t then T.state6.v + T.state6.a * (t - T.state6.t) +
        0.5 * T.state6.j * (t - T.state6.t) * (t - T.state6.t)
      else T.state7.v := by
  rw [calculateStateAtTime]
  simp only [apply_ite internalState.v, moveStateForward]

/-- Breakpoint times of a point-to-point trajectory. -/
theorem mkP2P_times (start end_ t0 J tj ta tv : ℝ) :
    (mkP2PTrajectory start end_ t0 J tj ta tv).state0.t = 0 ∧
    (mkP2PTrajectory start end_ t0 J tj ta tv).state1.t = tj ∧
    (mkP2PTrajectory start end_ t0 J tj ta tv).state2.t = tj + ta ∧
    (mkP2PTrajectory start end_ t0 J tj ta tv).state3.t = 2 * tj + ta ∧
    (mkP2PTrajectory start end_ t0 J tj ta tv).state4.t = 2 * tj + ta + tv ∧
    (mkP2PTrajectory start end_ t0 J tj ta tv).state5.t = 3 * tj + ta + tv ∧
    (mkP2PTrajectory start end_ t0 J tj ta tv).state6.t = 3 * tj + 2 * ta + tv ∧
    (mkP2PTrajectory start end_ t0 J tj ta tv).state7.t =
      4 * tj + 2 * ta + tv := by
  simp only [mkP2PTrajectory, moveStateForward, withJerk]
  refine ⟨?_, ?_, ?_, ?_, ?_, ?_, ?_, ?_⟩ <;> first | trivial | ring

/-- Breakpoint velocities of a point-to-point trajectory. -/
theorem mkP2P_vels (start end_ t0 J tj ta tv : ℝ) :
    (mkP2PTrajectory start end_ t0 J tj ta tv).state0.v = 0 ∧
    (mkP2PTrajectory start end_ t0 J tj ta tv).state1.v = 0.5 * J * tj * tj ∧
    (mkP2PTrajectory start end_ t0 J tj ta tv).state2.v =
      0.5 * J * tj * tj + J * tj * ta ∧
    (mkP2PTrajectory start end_ t0 J tj ta tv).state3.v =
      J * tj * tj + J * tj * ta ∧
    (mkP2PTrajectory start end_ t0 J tj ta tv).state4.v =
      J * tj * tj + J * tj * ta ∧
    (mkP2PTrajectory start end_ t0 J tj ta tv).state5.v =
      0.5 * J * tj * tj + J * tj * ta ∧
    (mkP2PTrajectory start end_ t0 J tj ta tv).state6.v = 0.5 * J * tj * tj ∧
    (mkP2PTrajectory start end_ t0 J tj ta tv).state7.v = 0 := by
  simp only [mkP2PTrajectory, moveStateForward, withJerk]
  refine ⟨?_, ?_, ?_, ?_, ?_, ?_, ?_, ?_⟩ <;> first | trivial | ring

/-- Breakpoint accelerations of a point-to-point trajectory. -/
theorem mkP2P_accs (start end_ t0 J tj ta tv : ℝ) :
    (mkP2PTrajectory start end_ t0 J tj ta tv).state0.a = 0 ∧
    (mkP2PTrajectory start end_ t0 J tj ta tv).state1.a = J * tj ∧
    (mkP2PTrajectory start end_ t0 J tj ta tv).state2.a = J * tj ∧
    (mkP2PTrajectory start end_ t0 J tj ta tv).state3.a = 0 ∧
    (mkP2PTrajectory start end_ t0 J tj ta tv).state4.a = 0 ∧
    (mkP2PTrajectory start end_ t0 J tj ta tv).state5.a = -(J * tj) ∧
    (mkP2PTrajectory start end_ t0 J tj ta tv).state6.a = -(J * tj) ∧
    (mkP2PTrajectory start end_ t0 J tj ta tv).state7.a = 0 := by
  simp only [mkP2PTrajectory, moveStateForward, withJerk]
  refine ⟨?_, ?_, ?_, ?_, ?_, ?_, ?_, ?_⟩ <;> first | trivial | ring

/-- Breakpoint jerks of a point-to-point trajectory. -/
theorem mkP2P_jerks (start end_ t0 J tj ta tv : ℝ) :
    (mkP2PTrajectory start end_ t0 J tj ta tv).state0.j = J ∧
    (mkP2PTrajectory start end_ t0 J tj ta tv).state1.j = 0 ∧
    (mkP2PTrajectory start end_ t0 J tj ta tv).state2.j = -J ∧
    (mkP2PTrajectory start end_ t0 J tj ta tv).state3.j = 0 ∧
    (mkP2PTrajectory start end_ t0 J tj ta tv).state4.j = -J ∧
    (mkP2PTrajectory start end_ t0 J tj ta tv).state5.j = 0 ∧
    (mkP2PTrajectory start end_ t0 J tj ta tv).state6.j = J ∧
    (mkP2PTrajectory start end_ t0 J tj ta tv).state7.j = 0 := by
  simp only [mkP2PTrajectory, moveStateForward, withJerk]
  refine ⟨?_, ?_, ?_, ?_, ?_, ?_, ?_, ?_⟩ <;> first | trivial | ring

set_option maxHeartbeats 2000000 in
/-- Core bound: any point-to-point trajectory built from nonnegative phase
durations whose peak acceleration and peak velocity respect the limits keeps
its jerk, acceleration and velocity within the limits at every time. -/
theorem mkP2P_eval_bounds (jm am vm start en t0 J tj ta tv t : ℝ)
    (hj : 0 < jm) (hJ : J = jm ∨ J = -jm)
    (htj : 0 ≤ tj) (hta : 0 ≤ ta) (htv : 0 ≤ tv)
    (hpa : jm * tj ≤ am) (hpv : jm * tj * (tj + ta) ≤ vm) :
    |(calculateStateAtTime (mkP2PTrajectory start en t0 J tj ta tv) t).j| ≤ jm ∧
    |(calculateStateAtTime (mkP2PTrajectory start en t0 J tj ta tv) t).a| ≤ am ∧
    |(calculateStateAtTime (mkP2PTrajectory start en t0 J tj ta tv) t).v| ≤ vm := by
  obtain ⟨e0, e1, e2, e3, e4, e5, e6, e7⟩ := mkP2P_times start en t0 J tj ta tv
  obtain ⟨v0, v1, v2, v3, v4, v5, v6, v7⟩ := mkP2P_vels start en t0 J tj ta tv
  obtain ⟨a0, a1, a2, a3, a4, a5, a6, a7⟩ := mkP2P_accs start en t0 J tj ta tv
  obtain ⟨j0, j1, j2, j3, j4, j5, j6, j7⟩ := mkP2P_jerks start en t0 J tj ta tv
  have hJu : J ≤ jm := by
    rcases hJ with rfl | rfl
    · exact le_refl _
    · linarith
  have hJl : -jm ≤ J := by
    rcases hJ with rfl | rfl
    · linarith
    · exact le_refl _
  have habs : |J| = jm := by
    rcases hJ with rfl | rfl
    · exact abs_of_pos hj
    · rw [abs_neg]; exact abs_of_pos hj
  have ham : 0 ≤ am := le_trans (mul_nonneg hj.le htj) hpa
  have hvm : 0 ≤ vm :=
    le_trans (mul_nonneg (mul_nonneg hj.le htj) (by linarith)) hpv
  refine ⟨?_, ?_, ?_⟩
  · -- jerk bound
    rw [calculateStateAtTime_j]
    simp only [e0, e1, e2, e3, e4, e5, e6, e7, j0, j1, j2, j3, j4, j5, j6, j7]
    clear e0 e1 e2 e3 e4 e5 e6 e7 v0 v1 v2 v3 v4 v5 v6 v7 a0 a1 a2 a3 a4 a5 a6 a7 j0 j1 j2 j3 j4 j5 j6 j7 hJ
    split_ifs with h0 h8 p1 p2 p3 p4 p5 p6 p7
    · exact le_of_eq habs
    · rw [abs_zero]; exact hj.le
    · exact le_of_eq habs
    · rw [abs_zero]; exact hj.le
    · rw [abs_neg]; exact le_of_eq habs
    · rw [abs_zero]; exact hj.le
    · rw [abs_neg]; exact le_of_eq habs
    · rw [abs_zero]; exact hj.le
    · exact le_of_eq habs
    · exact absurd (not_lt.mp h8) p7
  · -- acceleration bound
    rw [calculateStateAtTime_a]
    simp only [e0, e1, e2, e3, e4, e5, e6, e7, a0, a1, a2, a3, a4, a5, a6, a7,
      j0, j1, j2, j3, j4, j5, j6, j7]
    clear e0 e1 e2 e3 e4 e5 e6 e7 v0 v1 v2 v3 v4 v5 v6 v7 a0 a1 a2 a3 a4 a5 a6 a7 j0 j1 j2 j3 j4 j5 j6 j7 hJ
    split_ifs with h0 h8 p1 p2 p3 p4 p5 p6 p7
    · rw [abs_zero]; exact ham
    · rw [abs_zero]; exact ham
    · -- phase 1: a = J t
      have ht : 0 < t := not_le.mp h0
      have hb : jm * t ≤ am := by
        nlinarith [mul_le_mul_of_nonneg_left p1 hj.le]
      rw [abs_le]
      constructor <;> nlinarith [ht.le, hb, hJu, hJl]
    · -- phase 2: a = J tj
      rw [abs_le]
      constructor <;> nlinarith [htj, hpa, hJu, hJl]
    · -- phase 3: a = J (tj - d)
      have hd0 : 0 ≤ t - (tj + ta) := by linarith [not_le.mp p2]
      have hg : 0 ≤ tj - (t - (tj + ta)) := by linarith
      have hb : jm * (tj - (t - (tj + ta))) ≤ am := by
        nlinarith [hpa, mul_nonneg hj.le hd0]
      rw [abs_le]
      constructor <;> nlinarith [hg, hb, hJu, hJl]
    · -- phase 4: a = 0
      rw [abs_le]
      constructor <;> nlinarith [ham]
    · -- phase 5: a = -J d
      have hd0 : 0 ≤ t - (2 * tj + ta + tv) := by linarith [not_le.mp p4]
      have hb : jm * (t - (2 * tj + ta + tv)) ≤ am := by
        nlinarith [hpa,
          mul_nonneg hj.le (show (0:ℝ) ≤ tj - (t - (2 * tj + ta + tv)) by linarith)]
      rw [abs_le]
      constructor <;> nlinarith [hd0, hb, hJu, hJl]
    · -- phase 6: a = -J tj
      rw [abs_le]
      constructor <;> nlinarith [htj, hpa, hJu, hJl]
    · -- phase 7: a = -J (tj - d)
      have hd0 : 0 ≤ t - (3 * tj + 2 * ta + tv) := by linarith [not_le.mp p6]
      have hg : 0 ≤ tj - (t - (3 * tj + 2 * ta + tv)) := by linarith
      have hb : jm * (tj - (t - (3 * tj + 2 * ta + tv))) ≤ am := by
        nlinarith [hpa, mul_nonneg hj.le hd0]
      rw [abs_le]
      constructor <;> nlinarith [hg, hb, hJu, hJl]
    · exact absurd (not_lt.mp h8) p7
  · -- velocity bound
    rw [calculateStateAtTime_v]
    simp only [e0, e1, e2, e3, e4, e5, e6, e7, v0, v1, v2, v3, v4, v5, v6, v7,
      a0, a1, a2, a3, a4, a5, a6, a7, j0, j1, j2, j3, j4, j5, j6, j7]
    clear e0 e1 e2 e3 e4 e5 e6 e7 v0 v1 v2 v3 v4 v5 v6 v7 a0 a1 a2 a3 a4 a5 a6 a7 j0 j1 j2 j3 j4 j5 j6 j7 hJ
    split_ifs with h0 h8 p1 p2 p3 p4 p5 p6 p7
    · rw [abs_zero]; exact hvm
    · rw [abs_zero]; exact hvm
    · -- phase 1: v = J t^2 / 2
      have ht : 0 < t := not_le.mp h0
      have hg : (0:ℝ) ≤ 0.5 * (t * t) := by nlinarith [mul_self_nonneg t]
      have hb : jm * (0.5 * (t * t)) ≤ vm := by
        nlinarith [mul_self_le_mul_self ht.le p1, hpv, hj.le,
          mul_nonneg (mul_nonneg hj.le htj) hta,
          mul_nonneg (mul_nonneg hj.le htj) htj]
      rw [abs_le]
      constructor <;> nlinarith [hg, hb, hJu, hJl]
    · -- phase 2: v = J (tj^2/2 + tj d)
      have hd : tj < t := not_le.mp p1
      have hg : (0:ℝ) ≤ 0.5 * (tj * tj) + tj * (t - tj) := by
        nlinarith [mul_nonneg htj htj,
          mul_nonneg htj (show (0:ℝ) ≤ t - tj by linarith)]
      have hb : jm * (0.5 * (tj * tj) + tj * (t - tj)) ≤ vm := by
        nlinarith [hpv,
          mul_nonneg (mul_nonneg hj.le htj) (show (0:ℝ) ≤ ta - (t - tj) by linarith),
          mul_nonneg (mul_nonneg hj.le htj) htj]
      rw [abs_le]
      constructor <;> nlinarith [hg, hb, hJu, hJl]
    · -- phase 3: v = J (tj^2/2 + tj ta + tj d - d^2/2)
      have hd0 : 0 ≤ t - (tj + ta) := by linarith [not_le.mp p2]
      have hdtj : t - (tj + ta) ≤ tj := by linarith
      have hg : (0:ℝ) ≤ 0.5 * (tj * tj) + tj * ta + tj * (t - (tj + ta)) -
          0.5 * ((t - (tj + ta)) * (t - (tj + ta))) := by
        nlinarith [mul_nonneg htj hta, mul_nonneg htj htj,
          mul_nonneg hd0 (show (0:ℝ) ≤ 2 * tj - (t - (tj + ta)) by linarith)]
      have hb : jm * (0.5 * (tj * tj) + tj * ta + tj * (t - (tj + ta)) -
          0.5 * ((t - (tj + ta)) * (t - (tj + ta)))) ≤ vm := by
        nlinarith [hpv, mul_nonneg hj.le (sq_nonneg (tj - (t - (tj + ta))))]
      rw [abs_le]
      constructor <;> nlinarith [hg, hb, hJu, hJl]
    · -- phase 4: v = J (tj^2 + tj ta)
      have hg : (0:ℝ) ≤ tj * tj + tj * ta := by
        nlinarith [mul_nonneg htj htj, mul_nonneg htj hta]
      have hb : jm * (tj * tj + tj * ta) ≤ vm := by nlinarith [hpv]
      rw [abs_le]
      constructor <;> nlinarith [hg, hb, hJu, hJl]
    · -- phase 5: v = J (tj^2 + tj ta - d^2/2)
      have hd0 : 0 ≤ t - (2 * tj + ta + tv) := by linarith [not_le.mp p4]
      have hdtj : t - (2 * tj + ta + tv) ≤ tj := by linarith
      have hg : (0:ℝ) ≤ tj * tj + tj * ta -
          0.5 * ((t - (2 * tj + ta + tv)) * (t - (2 * tj + ta + tv))) := by
        nlinarith [mul_nonneg htj hta,
          mul_nonneg (show (0:ℝ) ≤ tj - (t - (2 * tj + ta + tv)) by linarith)
            (show (0:ℝ) ≤ tj + (t - (2 * tj + ta + tv)) by linarith)]
      have hb : jm * (tj * tj + tj * ta -
          0.5 * ((t - (2 * tj + ta + tv)) * (t - (2 * tj + ta + tv)))) ≤ vm := by
        nlinarith [hpv,
          mul_nonneg hj.le (mul_self_nonneg (t - (2 * tj + ta + tv)))]
      rw [abs_le]
      constructor <;> nlinarith [hg, hb, hJu, hJl]
    · -- phase 6: v = J (tj^2/2 + tj ta - tj d)
      have hd0 : 0 ≤ t - (3 * tj + ta + tv) := by linarith [not_le.mp p5]
      have hdta : t - (3 * tj + ta + tv) ≤ ta := by linarith
      have hg : (0:ℝ) ≤ 0.5 * (tj * tj) + tj * ta -
          tj * (t - (3 * tj + ta + tv)) := by
        nlinarith [mul_nonneg htj htj,
          mul_nonneg htj (show (0:ℝ) ≤ ta - (t - (3 * tj + ta + tv)) by linarith)]
      have hb : jm * (0.5 * (tj * tj) + tj * ta -
          tj * (t - (3 * tj + ta + tv))) ≤ vm := by
        nlinarith [hpv, mul_nonneg (mul_nonneg hj.le htj) htj,
          mul_nonneg (mul_nonneg hj.le htj) hd0]
      rw [abs_le]
      constructor <;> nlinarith [hg, hb, hJu, hJl]
    · -- phase 7: v = J (tj - d)^2 / 2
      have hd0 : 0 ≤ t - (3 * tj + 2 * ta + tv) := by linarith [not_le.mp p6]
      have hdtj : t - (3 * tj + 2 * ta + tv) ≤ tj := by linarith
      have hg : (0:ℝ) ≤ 0.5 * (tj * tj) -
          tj * (t - (3 * tj + 2 * ta + tv)) +
          0.5 * ((t - (3 * tj + 2 * ta + tv)) * (t - (3 * tj + 2 * ta + tv))) := by
        nlinarith [sq_nonneg (tj - (t - (3 * tj + 2 * ta + tv)))]
      have hb : jm * (0.5 * (tj * tj) -
          tj * (t - (3 * tj + 2 * ta + tv)) +
          0.5 * ((t - (3 * tj + 2 * ta + tv)) * (t - (3 * tj + 2 * ta + tv)))) ≤
          vm := by
        nlinarith [hpv,
          mul_nonneg hj.le (mul_nonneg hd0
            (show (0:ℝ) ≤ 2 * tj - (t - (3 * tj + 2 * ta + tv)) by linarith)),
          mul_nonneg (mul_nonneg hj.le htj) hta,
          mul_nonneg (mul_nonneg hj.le htj) htj]
      rw [abs_le]
      constructor <;> nlinarith [hg, hb, hJu, hJl]
    · exact absurd (not_lt.mp h8) p7

set_option maxHeartbeats 2000000 in
/-- The durations computed by `p2pDurations` are nonnegative, the peak
acceleration `jerk * tj` stays below `max_acceleration`, and the peak velocity
`jerk * tj * (tj + ta)` stays below `max_velocity`, in every regime. -/
theorem p2pDurations_spec (mpc : MovementPlanner) (s : ℝ)
    (hj : 0 < mpc.max_jerk) (ha : 0 < mpc.max_acceleration)
    (hv : 0 < mpc.max_velocity) (hs : 0 ≤ s) :
    0 ≤ (p2pDurations mpc s).1 ∧ 0 ≤ (p2pDurations mpc s).2.1 ∧
      0 ≤ (p2pDurations mpc s).2.2 ∧
      mpc.max_jerk * (p2pDurations mpc s).1 ≤ mpc.max_acceleration ∧
      mpc.max_jerk * (p2pDurations mpc s).1 *
          ((p2pDurations mpc s).1 + (p2pDurations mpc s).2.1) ≤
        mpc.max_velocity := by
  obtain ⟨jm, am, vm⟩ := mpc
  simp only [p2pDurations] at *
  set K := Real.sqrt (vm / jm) with hKdef
  have hK0 : 0 ≤ K := Real.sqrt_nonneg _
  have hK2 : K ^ 2 = vm / jm := Real.sq_sqrt (by positivity)
  have hK2' : jm * (K * K) = vm := by
    have h : K * K = vm / jm := by rw [← sq]; exact hK2
    rw [h]; field_simp
  split_ifs with hsv h1 h2 h3 g1 g2 g3
  · -- sqrt form of sv, VelocityLimited regime
    have hva : vm * jm ≤ am * am := by
      have hva0 : vm ≤ am * am / jm := by
        rcases h1 with ⟨hx, _⟩ | ⟨hx, _⟩ <;> exact hx
      rw [le_div_iff hj] at hva0; linarith
    have h4 : jm * K ≤ am := by
      have hsq : (jm * K) ^ 2 ≤ am ^ 2 := by
        have hx : (jm * K) ^ 2 = jm * (jm * (K * K)) := by ring
        rw [hx, hK2']; nlinarith
      exact le_of_pow_le_pow_left two_ne_zero ha.le hsq
    have htv : 0 ≤ s / vm - 2 * K := by
      have hkey : 2 * vm * K ≤ s := by
        rcases h1 with ⟨_, hsa⟩ | ⟨_, _, hsv2⟩
        · -- s > sa, and sv ≤ sa in this regime
          have hx : 2 * vm * K ≤ 2 * am * am * am / (jm * jm) := by
            rw [le_div_iff (by positivity : (0:ℝ) < jm * jm)]
            have s1 : vm * jm * (jm * K) ≤ am * am * (jm * K) :=
              mul_le_mul_of_nonneg_right hva (by positivity)
            have s2 : am * am * (jm * K) ≤ am * am * am :=
              mul_le_mul_of_nonneg_left h4 (by positivity)
            nlinarith [s1, s2]
          linarith
        · linarith
      rw [le_sub_iff_add_le, zero_add, le_div_iff hv]
      linarith
    refine ⟨hK0, le_refl 0, htv, h4, ?_⟩
    show jm * K * (K + 0) ≤ vm
    have hx : jm * K * (K + 0) = vm := by rw [add_zero, mul_assoc, hK2']
    exact hx.le
  · -- sqrt form of sv, JerkLimited regime
    set C := rcbrt (s / (2 * jm)) with hCdef
    have hC0 : 0 ≤ C := rcbrt_nonneg _ (by positivity)
    have hC3 : C ^ 3 = s / (2 * jm) := rcbrt_cube _ (by positivity)
    have hsa : s * (jm * jm) ≤ 2 * am * am * am := by
      have hx : s ≤ 2 * am * am * am / (jm * jm) := by
        rcases h2 with ⟨_, hx⟩ | ⟨_, hx, _⟩ <;> exact hx
      rw [le_div_iff (by positivity : (0:ℝ) < jm * jm)] at hx; exact hx
    have h4 : jm * C ≤ am := by
      have hcube : C ^ 3 ≤ (am / jm) ^ 3 := by
        rw [hC3, div_pow, div_le_div_iff (by positivity) (by positivity)]
        nlinarith [hsa, hj]
      have hx := le_of_pow_le_pow_left three_ne_zero
        (by positivity : (0:ℝ) ≤ am / jm) hcube
      rw [le_div_iff hj] at hx; linarith
    refine ⟨hC0, le_refl 0, le_refl 0, h4, ?_⟩
    show jm * C * (C + 0) ≤ vm
    have hgoal : jm * (C * C) ≤ vm := by
      rcases h2 with ⟨hva, _⟩ | ⟨hva, _, hsv2⟩
      · -- vmax > va
        have hCa : C ≤ am / jm := by rw [le_div_iff hj]; linarith [h4]
        have hmul : C * C ≤ am / jm * (am / jm) :=
          mul_le_mul hCa hCa hC0 (by positivity)
        have hx : jm * (C * C) ≤ jm * (am / jm * (am / jm)) :=
          mul_le_mul_of_nonneg_left hmul hj.le
        have h2e : jm * (am / jm * (am / jm)) = am * am / jm := by
          field_simp; ring
        rw [h2e] at hx
        linarith [hva]
      · -- vmax ≤ va and s ≤ sv = 2 vm K
        have hCK : C ≤ K := by
          have hcube : C ^ 3 ≤ K ^ 3 := by
            rw [hC3]
            have hK3 : K ^ 3 = vm / jm * K := by
              have hx : K ^ 3 = K ^ 2 * K := by ring
              rw [hx, hK2]
            rw [hK3, div_le_iff (by positivity : (0:ℝ) < 2 * jm)]
            have hx : vm / jm * K * (2 * jm) = 2 * vm * K := by
              field_simp; ring
            rw [hx]; exact hsv2
          exact le_of_pow_le_pow_left three_ne_zero hK0 hcube
        have hx : jm * (C * C) ≤ jm * (K * K) :=
          mul_le_mul_of_nonneg_left (mul_le_mul hCK hCK hC0 hK0) hj.le
        rw [hK2'] at hx; exact hx
    nlinarith [hgoal]
  · -- sqrt form of sv contradicts the AccelerationLimitedWithMaxVelocity guard
    obtain ⟨hva, _, _⟩ := h3
    have hva2 : am * am < vm * jm := (div_lt_iff hj).mp hva
    exact absurd hsv (by nlinarith)
  · -- sqrt form of sv, fall-through: the first two guards cannot both fail
    exfalso
    have hva : vm ≤ am * am / jm := by rw [le_div_iff hj]; nlinarith
    rcases not_or.mp h1 with ⟨hn1, hn2⟩
    have hsa : s ≤ 2 * am * am * am / (jm * jm) := by
      by_contra hgt
      exact hn1 ⟨hva, lt_of_not_le hgt⟩
    have hsvle : s ≤ 2 * vm * K := by
      by_contra hgt
      exact hn2 ⟨hva, hsa, lt_of_not_le hgt⟩
    exact h2 (Or.inr ⟨hva, hsa, hsvle⟩)
  · -- closed form of sv, VelocityLimited regime (forces vm * jm = am * am)
    have hva : vm * jm ≤ am * am := by
      have hva0 : vm ≤ am * am / jm := by
        rcases g1 with ⟨hx, _⟩ | ⟨hx, _⟩ <;> exact hx
      rw [le_div_iff hj] at hva0; linarith
    have heq : vm * jm = am * am := le_antisymm hva (not_lt.mp hsv)
    have hKeq : K = am / jm := by
      have h1e : (am / jm) ^ 2 = vm / jm := by
        rw [div_pow, div_eq_div_iff (by positivity) hj.ne']
        linear_combination (-1 : ℝ) * jm * heq
      rw [hKdef, ← h1e, Real.sqrt_sq (by positivity)]
    have h4 : jm * K ≤ am := by
      rw [hKeq]
      have hx : jm * (am / jm) = am := by field_simp
      linarith [hx.le]
    have hsveq : vm * (vm / am + am / jm) = 2 * vm * K := by
      have hvm : vm / am = am / jm := by
        rw [div_eq_div_iff ha.ne' hj.ne']
        linarith [heq]
      rw [hKeq, hvm]; ring
    have htv : 0 ≤ s / vm - 2 * K := by
      have hkey : 2 * vm * K ≤ s := by
        rcases g1 with ⟨_, hsa⟩ | ⟨_, _, hsv2⟩
        · -- s > sa, and sv = sa at the regime boundary
          have hx : 2 * vm * K = 2 * am * am * am / (jm * jm) := by
            rw [hKeq, eq_div_iff (by positivity : (jm * jm : ℝ) ≠ 0)]
            have hexp : 2 * vm * (am / jm) * (jm * jm) = 2 * vm * am * jm := by
              field_simp; ring
            rw [hexp]
            linear_combination 2 * am * heq
          rw [hx]; linarith
        · rw [← hsveq]; linarith [hsv2]
      rw [le_sub_iff_add_le, zero_add, le_div_iff hv]
      linarith
    refine ⟨hK0, le_refl 0, htv, h4, ?_⟩
    show jm * K * (K + 0) ≤ vm
    have hx : jm * K * (K + 0) = vm := by rw [add_zero, mul_assoc, hK2']
    exact hx.le
  · -- closed form of sv, JerkLimited regime
    set C := rcbrt (s / (2 * jm)) with hCdef
    have hC0 : 0 ≤ C := rcbrt_nonneg _ (by positivity)
    have hC3 : C ^ 3 = s / (2 * jm) := rcbrt_cube _ (by positivity)
    have hsa : s * (jm * jm) ≤ 2 * am * am * am := by
      have hx : s ≤ 2 * am * am * am / (jm * jm) := by
        rcases g2 with ⟨_, hx⟩ | ⟨_, hx, _⟩ <;> exact hx
      rw [le_div_iff (by positivity : (0:ℝ) < jm * jm)] at hx; exact hx
    have h4 : jm * C ≤ am := by
      have hcube : C ^ 3 ≤ (am / jm) ^ 3 := by
        rw [hC3, div_pow, div_le_div_iff (by positivity) (by positivity)]
        nlinarith [hsa, hj]
      have hx := le_of_pow_le_pow_left three_ne_zero
        (by positivity : (0:ℝ) ≤ am / jm) hcube
      rw [le_div_iff hj] at hx; linarith
    refine ⟨hC0, le_refl 0, le_refl 0, h4, ?_⟩
    show jm * C * (C + 0) ≤ vm
    have hgoal : jm * (C * C) ≤ vm := by
      rcases g2 with ⟨hva, _⟩ | ⟨hva, _, hsv2⟩
      · have hCa : C ≤ am / jm := by rw [le_div_iff hj]; linarith [h4]
        have hmul : C * C ≤ am / jm * (am / jm) :=
          mul_le_mul hCa hCa hC0 (by positivity)
        have hx : jm * (C * C) ≤ jm * (am / jm * (am / jm)) :=
          mul_le_mul_of_nonneg_left hmul hj.le
        have h2e : jm * (am / jm * (am / jm)) = am * am / jm := by
          field_simp; ring
        rw [h2e] at hx
        linarith [hva]
      · -- vm * jm = am * am here, and sv = 2 vm K
        have hva' : vm * jm ≤ am * am := by
          rw [le_div_iff hj] at hva; linarith
        have heq : vm * jm = am * am := le_antisymm hva' (not_lt.mp hsv)
        have hKeq : K = am / jm := by
          have h1e : (am / jm) ^ 2 = vm / jm := by
            rw [div_pow, div_eq_div_iff (by positivity) hj.ne']
            linear_combination (-1 : ℝ) * jm * heq
          rw [hKdef, ← h1e, Real.sqrt_sq (by positivity)]
        have hsveq : vm * (vm / am + am / jm) = 2 * vm * K := by
          have hvm : vm / am = am / jm := by
            rw [div_eq_div_iff ha.ne' hj.ne']
            linarith [heq]
          rw [hKeq, hvm]; ring
        have hCK : C ≤ K := by
          have hcube : C ^ 3 ≤ K ^ 3 := by
            rw [hC3]
            have hK3 : K ^ 3 = vm / jm * K := by
              have hx : K ^ 3 = K ^ 2 * K := by ring
              rw [hx, hK2]
            rw [hK3, div_le_iff (by positivity : (0:ℝ) < 2 * jm)]
            have hx : vm / jm * K * (2 * jm) = 2 * vm * K := by
              field_simp; ring
            rw [hx, ← hsveq]; exact hsv2
          exact le_of_pow_le_pow_left three_ne_zero hK0 hcube
        have hx : jm * (C * C) ≤ jm * (K * K) :=
          mul_le_mul_of_nonneg_left (mul_le_mul hCK hCK hC0 hK0) hj.le
        rw [hK2'] at hx; exact hx
    nlinarith [hgoal]
  · -- closed form of sv, AccelerationLimitedWithMaxVelocity regime
    obtain ⟨hva, hsa, hsvs⟩ := g3
    have hva2 : am * am < vm * jm := (div_lt_iff hj).mp hva
    have hta : 0 ≤ vm / am - am / jm := by
      rw [sub_nonneg, div_le_div_iff hj ha]
      nlinarith [hva2]
    have htv : 0 ≤ s / vm - 2 * (am / jm) - (vm / am - am / jm) := by
      have hx : vm * (vm / am + am / jm) ≤ s := le_of_lt hsvs
      rw [le_sub_iff_add_le, le_sub_iff_add_le, le_div_iff hv]
      nlinarith [hx]
    have h4 : jm * (am / jm) = am := by field_simp
    have h5 : jm * (am / jm) * (am / jm + (vm / am - am / jm)) = vm := by
      rw [h4]
      have hx : am / jm + (vm / am - am / jm) = vm / am := by ring
      rw [hx, mul_comm, div_mul_cancel₀ _ ha.ne']
    have htj0 : (0:ℝ) ≤ am / jm := by positivity
    exact ⟨htj0, hta, htv, h4.le, h5.le⟩
  · -- closed form of sv, AccelerationLimitedWithoutMaxVelocity regime
    have hva : am * am < vm * jm := by
      rcases lt_or_eq_of_le (not_lt.mp hsv) with hlt | heq2
      · exact hlt
      · exfalso
        have hva0 : vm ≤ am * am / jm := by
          rw [le_div_iff hj]; linarith [heq2.ge]
        rcases not_or.mp g1 with ⟨hn1, hn2⟩
        have hsa : s ≤ 2 * am * am * am / (jm * jm) := by
          by_contra hgt
          exact hn1 ⟨hva0, lt_of_not_le hgt⟩
        have hsvle : s ≤ vm * (vm / am + am / jm) := by
          by_contra hgt
          exact hn2 ⟨hva0, hsa, lt_of_not_le hgt⟩
        exact g2 (Or.inr ⟨hva0, hsa, hsvle⟩)
    have hva2 : am * am / jm < vm := by rw [div_lt_iff hj]; exact hva
    have hsa : 2 * am * am * am / (jm * jm) < s := by
      by_contra hle
      exact g2 (Or.inl ⟨hva2, not_lt.mp hle⟩)
    have hsa' : 2 * am * am * am < s * (jm * jm) := by
      rw [div_lt_iff (by positivity : (0:ℝ) < jm * jm)] at hsa; exact hsa
    have hsv2 : s ≤ vm * (vm / am + am / jm) := by
      by_contra hgt
      exact g3 ⟨hva2, hsa, lt_of_not_le hgt⟩
    set Q := (4 * s * jm ^ 2 + am ^ 3) / (am * jm ^ 2) with hQdef
    have hQ0 : 0 ≤ Q := by positivity
    set W := Real.sqrt Q with hWdef
    have hW0 : 0 ≤ W := Real.sqrt_nonneg _
    have hW2 : W ^ 2 = Q := Real.sq_sqrt hQ0
    have hWlow : 3 * (am / jm) ≤ W := by
      have hsq : (3 * (am / jm)) ^ 2 ≤ Q := by
        rw [hQdef, le_div_iff (by positivity : (0:ℝ) < am * jm ^ 2)]
        have hexp : (3 * (am / jm)) ^ 2 * (am * jm ^ 2) = 9 * am ^ 3 := by
          field_simp; ring
        rw [hexp]; nlinarith [hsa', ha]
      calc 3 * (am / jm) = Real.sqrt ((3 * (am / jm)) ^ 2) :=
            (Real.sqrt_sq (by positivity)).symm
        _ ≤ Real.sqrt Q := Real.sqrt_le_sqrt hsq
    have hta : 0 ≤ 0.5 * W - 1.5 * (am / jm) := by
      nlinarith [hWlow]
    have hWhigh : W ≤ (2 * vm + am * am / jm) / am := by
      have hsq : Q ≤ ((2 * vm + am * am / jm) / am) ^ 2 := by
        rw [hQdef, div_le_iff (by positivity : (0:ℝ) < am * jm ^ 2)]
        have hexpB : ((2 * vm + am * am / jm) / am) ^ 2 * (am * jm ^ 2) =
            (2 * vm * jm + am * am) ^ 2 / am := by
          field_simp; ring
        rw [hexpB, le_div_iff ha]
        have hsv2' : s * am * jm ≤ vm * (vm * jm + am * am) := by
          have hmul := mul_le_mul_of_nonneg_right hsv2
            (by positivity : (0:ℝ) ≤ am * jm)
          have hexp2 : vm * (vm / am + am / jm) * (am * jm) =
              vm * (vm * jm + am * am) := by
            field_simp
          calc s * am * jm = s * (am * jm) := by ring
            _ ≤ vm * (vm / am + am / jm) * (am * jm) := hmul
            _ = vm * (vm * jm + am * am) := hexp2
        nlinarith [mul_le_mul_of_nonneg_right hsv2'
          (by positivity : (0:ℝ) ≤ 4 * jm)]
      calc W = Real.sqrt Q := hWdef
        _ ≤ Real.sqrt (((2 * vm + am * am / jm) / am) ^ 2) :=
            Real.sqrt_le_sqrt hsq
        _ = (2 * vm + am * am / jm) / am := Real.sqrt_sq (by positivity)
    have h5 : jm * (am / jm) * (am / jm + (0.5 * W - 1.5 * (am / jm))) ≤ vm := by
      have hexp : jm * (am / jm) * (am / jm + (0.5 * W - 1.5 * (am / jm))) =
          am * (0.5 * W) - 0.5 * (am * (am / jm)) := by
        field_simp; ring
      rw [hexp]
      have hmul := mul_le_mul_of_nonneg_right hWhigh ha.le
      have hBam : (2 * vm + am * am / jm) / am * am = 2 * vm + am * am / jm :=
        div_mul_cancel₀ _ ha.ne'
      rw [hBam] at hmul
      have hdiv : am * (am / jm) = am * am / jm := by ring
      nlinarith [hmul]
    have h4 : jm * (am / jm) = am := by field_simp
    have htj0 : (0:ℝ) ≤ am / jm := by positivity
    exact ⟨htj0, hta, le_refl 0, h4.le, h5⟩

/-- C3: For every point-to-point trajectory produced by
`CalculatePointToPointTrajectory` from any start `p0` to any end `p1` (with
strictly positive planner limits `j`, `a_max`, `v_max`), the trajectory's
jerk, acceleration, and velocity satisfy `|j(t)| ≤ j`, `|a(t)| ≤ a_max` and
`|v(t)| ≤ v_max` for all times `t`. -/
theorem c3_point_to_point_within_limits (mj ma mv p0 p1 t0 t : ℝ)
    (hj : 0 < mj) (ha : 0 < ma) (hv : 0 < mv) :
    |(calculateStateAtTime
        (CalculatePointToPointTrajectory ⟨mj, ma, mv⟩ p0 p1 t0) t).j| ≤ mj ∧
    |(calculateStateAtTime
        (CalculatePointToPointTrajectory ⟨mj, ma, mv⟩ p0 p1 t0) t).a| ≤ ma ∧
    |(calculateStateAtTime
        (CalculatePointToPointTrajectory ⟨mj, ma, mv⟩ p0 p1 t0) t).v| ≤ mv := by
  obtain ⟨r1, r2, r3, r4, r5⟩ :=
    p2pDurations_spec ⟨mj, ma, mv⟩ |p1 - p0| hj ha hv (abs_nonneg _)
  simp only [CalculatePointToPointTrajectory]
  refine mkP2P_eval_bounds mj ma mv p0 p1 t0 _ _ _ _ t hj ?_ r1 r2 r3 r4 r5
  split_ifs with h
  · exact Or.inl rfl
  · exact Or.inr rfl

/-- Witness for C3 at the default planner limits, the move 0 → 700, and
t = 1. -/
theorem c3_point_to_point_within_limits_witness :
    (0:ℝ) < 200 ∧ (0:ℝ) < 100 ∧ (0:ℝ) < 300 ∧
    (|(calculateStateAtTime
        (CalculatePointToPointTrajectory ⟨200, 100, 300⟩ 0 700 0) 1).j| ≤ 200 ∧
     |(calculateStateAtTime
        (CalculatePointToPointTrajectory ⟨200, 100, 300⟩ 0 700 0) 1).a| ≤ 100 ∧
     |(calculateStateAtTime
        (CalculatePointToPointTrajectory ⟨200, 100, 300⟩ 0 700 0) 1).v| ≤ 300) :=
  ⟨by norm_num, by norm_num, by norm_num,
    c3_point_to_point_within_limits 200 100 300 0 700 0 1 (by norm_num)
      (by norm_num) (by norm_num)⟩


/-- Piecewise form of the position component of `calculateStateAtTime`. -/
theorem calculateStateAtTime_p (T : Trajectory) (t : ℝ) :
    (calculateStateAtTime T t).p =
      if t ≤ 0 then T.state0.p
      else if t > T.state7.t then T.state7.p
      else if t ≤ T.state1.t then T.state0.p + T.state0.v * (t - T.state0.t) +
        0.5 * T.state0.a * (t - T.state0.t) * (t - T.state0.t) +
        1 / 6 * T.state0.j * (t - T.state0.t) * (t - T.state0.t) *
          (t - T.state0.t)
      else if t ≤ T.state2.t then T.state1.p + T.state1.v * (t - T.state1.t) +
        0.5 * T.state1.a * (t - T.state1.t) * (t - T.state1.t) +
        1 / 6 * T.state1.j * (t - T.state1.t) * (t - T.state1.t) *
          (t - T.state1.t)
      else if t ≤ T.state3.t then T.state2.p + T.state2.v * (t - T.state2.t) +
        0.5 * T.state2.a * (t - T.state2.t) * (t - T.state2.t) +
        1 / 6 * T.state2.j * (t - T.state2.t) * (t - T.state2.t) *
          (t - T.state2.t)
      else if t ≤ T.state4.t then T.state3.p + T.state3.v * (t - T.state3.t) +
        0.5 * T.state3.a * (t - T.state3.t) * (t - T.state3.t) +
        1 / 6 * T.state3.j * (t - T.state3.t) * (t - T.state3.t) *
          (t - T.state3.t)
      else if t ≤ T.state5.t then T.state4.p + T.state4.v * (t - T.state4.t) +
        0.5 * T.state4.a * (t - T.state4.t) * (t - T.state4.t) +
        1 / 6 * T.state4.j * (t - T.state4.t) * (t - T.state4.t) *
          (t - T.state4.t)
      else if t ≤ T.state6.t then T.state5.p + T.state5.v * (t - T.state5.t) +
        0.5 * T.state5.a * (t - T.state5.t) * (t - T.state5.t) +
        1 / 6 * T.state5.j * (t - T.state5.t) * (t - T.state5.t) *
          (t - T.state5.t)
      else if t ≤ T.state7.t then T.state6.p + T.state6.v * (t - T.state6.t) +
        0.5 * T.state6.a * (t - T.state6.t) * (t - T.state6.t) +
        1 / 6 * T.state6.j * (t - T.state6.t) * (t - T.state6.t) *
          (t - T.state6.t)
      else T.state7.p := by
  rw [calculateStateAtTime]
  simp only [apply_ite internalState.p, moveStateForward]

/-- Stored fields and breakpoint times of a trajectory built by
`mkStoppingTrajectory` from an arbitrary duration triple `d`: the stored
`taStop` field is zero (the Go struct literal omits it), and the realized
phase boundaries are the partial sums of `d`. -/
theorem mkStopping_fields (mpc : MovementPlanner) (prev : Trajectory)
    (now : ℝ) (d : ℝ × ℝ × ℝ) :
    (mkStoppingTrajectory mpc prev now d).taStop = 0 ∧
    (mkStoppingTrajectory mpc prev now d).tjStop1 = d.1 ∧
    (mkStoppingTrajectory mpc prev now d).tjStop2 = d.2.2 ∧
    (mkStoppingTrajectory mpc prev now d).state0.t = 0 ∧
    (mkStoppingTrajectory mpc prev now d).state1.t = d.1 ∧
    (mkStoppingTrajectory mpc prev now d).state2.t = d.1 + d.2.1 ∧
    (mkStoppingTrajectory mpc prev now d).state3.t = d.1 + d.2.1 + d.2.2 ∧
    (mkStoppingTrajectory mpc prev now d).state7.t = d.1 + d.2.1 + d.2.2 := by
  simp only [mkStoppingTrajectory, moveStateForward, withJerk, withTimeZero]
  refine ⟨?_, ?_, ?_, ?_, ?_, ?_, ?_, ?_⟩ <;> first | trivial | ring

/-- A stop built with all three durations zero is frozen at the sampled
state: every breakpoint carries the sampled position, velocity and
acceleration, the end position is the sampled position, and evaluating it at
any time returns the sampled position, velocity and acceleration. -/
theorem mkStopping_zero_frozen (mpc : MovementPlanner) (prev : Trajectory)
    (now : ℝ) :
    (mkStoppingTrajectory mpc prev now (0, 0, 0)).end_ =
      (calculateStateAtTime prev (now - prev.t0)).p ∧
    ∀ τ : ℝ,
      (calculateStateAtTime (mkStoppingTrajectory mpc prev now (0, 0, 0)) τ).p =
        (calculateStateAtTime prev (now - prev.t0)).p ∧
      (calculateStateAtTime (mkStoppingTrajectory mpc prev now (0, 0, 0)) τ).v =
        (calculateStateAtTime prev (now - prev.t0)).v ∧
      (calculateStateAtTime (mkStoppingTrajectory mpc prev now (0, 0, 0)) τ).a =
        (calculateStateAtTime prev (now - prev.t0)).a := by
  have hp0 : (mkStoppingTrajectory mpc prev now (0, 0, 0)).state0.p =
      (calculateStateAtTime prev (now - prev.t0)).p := by
    simp only [mkStoppingTrajectory, moveStateForward, withJerk, withTimeZero]
  have hv0 : (mkStoppingTrajectory mpc prev now (0, 0, 0)).state0.v =
      (calculateStateAtTime prev (now - prev.t0)).v := by
    simp only [mkStoppingTrajectory, moveStateForward, withJerk, withTimeZero]
  have ha0 : (mkStoppingTrajectory mpc prev now (0, 0, 0)).state0.a =
      (calculateStateAtTime prev (now - prev.t0)).a := by
    simp only [mkStoppingTrajectory, moveStateForward, withJerk, withTimeZero]
  have hp7 : (mkStoppingTrajectory mpc prev now (0, 0, 0)).state7.p =
      (calculateStateAtTime prev (now - prev.t0)).p := by
    simp only [mkStoppingTrajectory, moveStateForward, withJerk, withTimeZero]
    ring
  have hv7 : (mkStoppingTrajectory mpc prev now (0, 0, 0)).state7.v =
      (calculateStateAtTime prev (now - prev.t0)).v := by
    simp only [mkStoppingTrajectory, moveStateForward, withJerk, withTimeZero]
    ring
  have ha7 : (mkStoppingTrajectory mpc prev now (0, 0, 0)).state7.a =
      (calculateStateAtTime prev (now - prev.t0)).a := by
    simp only [mkStoppingTrajectory, moveStateForward, withJerk, withTimeZero]
    ring
  have hend : (mkStoppingTrajectory mpc prev now (0, 0, 0)).end_ =
      (calculateStateAtTime prev (now - prev.t0)).p := by
    simp only [mkStoppingTrajectory, moveStateForward, withJerk, withTimeZero]
    ring
  have ht7 : (mkStoppingTrajectory mpc prev now (0, 0, 0)).state7.t = 0 := by
    simp only [mkStoppingTrajectory, moveStateForward, withJerk, withTimeZero]
    ring
  refine ⟨hend, fun τ => ?_⟩
  by_cases hτ : τ ≤ 0
  · rw [calculateStateAtTime_p, if_pos hτ, calculateStateAtTime_v, if_pos hτ,
      calculateStateAtTime_a, if_pos hτ]
    exact ⟨hp0, hv0, ha0⟩
  · have hτ2 : τ > (mkStoppingTrajectory mpc prev now (0, 0, 0)).state7.t := by
      rw [ht7]; exact lt_of_not_le hτ
    rw [calculateStateAtTime_p, if_neg hτ, if_pos hτ2,
      calculateStateAtTime_v, if_neg hτ, if_pos hτ2,
      calculateStateAtTime_a, if_neg hτ, if_pos hτ2]
    exact ⟨hp7, hv7, ha7⟩

set_option maxHeartbeats 1000000 in
/-- C4 (amended): when `calculateStoppingTrajectoryFromStoppingTrajectory`
interrupts a stopping trajectory, the new trajectory keeps the remaining
duration of the phase being executed, zeroes the durations of the phases
already completed, and takes the later-phase durations from the interrupted
trajectory's stored fields (whose `taStop` is always stored as zero);
interrupting an already-finished trajectory yields a trajectory frozen at the
sampled current state, hence stationary at the current position whenever that
state is at rest. -/
theorem c4_stop_of_stop_durations (mpc : MovementPlanner) (prev : Trajectory)
    (now : ℝ) (hstop : prev.isStopping = true) :
    (CalculateStoppingTrajectory mpc prev now).taStop = 0 ∧
    (CalculateStoppingTrajectory mpc prev now).state0.t = 0 ∧
    (now - prev.t0 ≤ prev.state1.t →
      (CalculateStoppingTrajectory mpc prev now).state1.t =
          prev.state1.t - (now - prev.t0) ∧
        (CalculateStoppingTrajectory mpc prev now).state2.t -
            (CalculateStoppingTrajectory mpc prev now).state1.t =
          prev.taStop ∧
        (CalculateStoppingTrajectory mpc prev now).state3.t -
            (CalculateStoppingTrajectory mpc prev now).state2.t =
          prev.tjStop2) ∧
    (prev.state1.t < now - prev.t0 → now - prev.t0 ≤ prev.state2.t →
      (CalculateStoppingTrajectory mpc prev now).state1.t = 0 ∧
        (CalculateStoppingTrajectory mpc prev now).state2.t =
          prev.state2.t - (now - prev.t0) ∧
        (CalculateStoppingTrajectory mpc prev now).state3.t -
            (CalculateStoppingTrajectory mpc prev now).state2.t =
          prev.tjStop2) ∧
    (prev.state1.t < now - prev.t0 → prev.state2.t < now - prev.t0 →
      now - prev.t0 ≤ prev.state3.t →
      (CalculateStoppingTrajectory mpc prev now).state1.t = 0 ∧
        (CalculateStoppingTrajectory mpc prev now).state2.t = 0 ∧
        (CalculateStoppingTrajectory mpc prev now).state3.t =
          prev.state3.t - (now - prev.t0)) ∧
    (prev.state1.t < now - prev.t0 → prev.state2.t < now - prev.t0 →
      prev.state3.t < now - prev.t0 →
      (CalculateStoppingTrajectory mpc prev now).state1.t = 0 ∧
        (CalculateStoppingTrajectory mpc prev now).state2.t = 0 ∧
        (CalculateStoppingTrajectory mpc prev now).state3.t = 0 ∧
        (CalculateStoppingTrajectory mpc prev now).end_ =
          (calculateStateAtTime prev (now - prev.t0)).p ∧
        ∀ τ : ℝ,
          (calculateStateAtTime (CalculateStoppingTrajectory mpc prev now)
              τ).p = (calculateStateAtTime prev (now - prev.t0)).p ∧
          (calculateStateAtTime (CalculateStoppingTrajectory mpc prev now)
              τ).v = (calculateStateAtTime prev (now - prev.t0)).v ∧
          (calculateStateAtTime (CalculateStoppingTrajectory mpc prev now)
              τ).a = (calculateStateAtTime prev (now - prev.t0)).a) := by
  have hr : CalculateStoppingTrajectory mpc prev now =
      mkStoppingTrajectory mpc prev now
        (stopStopDurations prev (now - prev.t0)) := by
    rw [CalculateStoppingTrajectory, if_pos hstop,
      calculateStoppingTrajectoryFromStoppingTrajectory]
  obtain ⟨f1, f2, f3, f4, f5, f6, f7, f8⟩ :=
    mkStopping_fields mpc prev now (stopStopDurations prev (now - prev.t0))
  rw [hr]
  refine ⟨f1, f4, ?_, ?_, ?_, ?_⟩
  · intro h1
    have hd : stopStopDurations prev (now - prev.t0) =
        (prev.state1.t - (now - prev.t0), prev.taStop, prev.tjStop2) := by
      rw [stopStopDurations, if_pos h1]
    rw [f5, f6, f7, hd]
    norm_num
  · intro h1 h2
    have hd : stopStopDurations prev (now - prev.t0) =
        (0, prev.state2.t - (now - prev.t0), prev.tjStop2) := by
      rw [stopStopDurations, if_neg (not_le.mpr h1), if_pos h2]
    rw [f5, f6, f7, hd]
    norm_num
  · intro h1 h2 h3
    have hd : stopStopDurations prev (now - prev.t0) =
        (0, 0, prev.state3.t - (now - prev.t0)) := by
      rw [stopStopDurations, if_neg (not_le.mpr h1), if_neg (not_le.mpr h2),
        if_pos h3]
    rw [f5, f6, f7, hd]
    norm_num
  · intro h1 h2 h3
    have hd : stopStopDurations prev (now - prev.t0) = (0, 0, 0) := by
      rw [stopStopDurations, if_neg (not_le.mpr h1), if_neg (not_le.mpr h2),
        if_neg (not_le.mpr h3)]
    obtain ⟨hend, hfroz⟩ := mkStopping_zero_frozen mpc prev now
    rw [f5, f6, f7, hd]
    exact ⟨by norm_num, by norm_num, by norm_num, hend, hfroz⟩


/-- Regime computation at the fixture distance: the move 0 → 1200 falls in the
`AccelerationLimitedWithMaxVelocity` regime with durations
`(tj, ta, tv) = (1/2, 5/2, 1/2)`. -/
theorem exDurations : p2pDurations mpcDefault 1200 = (1 / 2, 5 / 2, 1 / 2) := by
  simp only [p2pDurations, mpcDefault]
  norm_num

set_option maxHeartbeats 1000000 in
/-- Explicit value of the fixture point-to-point trajectory. -/
theorem exP2P_eq : exP2P =
    { end_ := 1200
      state0 := ⟨0, 0, 0, 0, 200⟩
      state1 := ⟨1 / 2, 25 / 6, 25, 100, 0⟩
      state2 := ⟨3, 2275 / 6, 275, 100, -200⟩
      state3 := ⟨7 / 2, 525, 300, 0, 0⟩
      state4 := ⟨4, 675, 300, 0, -200⟩
      state5 := ⟨9 / 2, 4925 / 6, 275, -100, 0⟩
      state6 := ⟨7, 7175 / 6, 25, -100, 200⟩
      state7 := ⟨15 / 2, 1200, 0, 0, 0⟩
      t0 := 0
      tjStop1 := 0
      taStop := 0
      tjStop2 := 0
      tj := 1 / 2
      ta := 5 / 2
      tv := 1 / 2
      isStopping := false } := by
  rw [exP2P]
  simp only [CalculatePointToPointTrajectory]
  rw [show |(1200:ℝ) - 0| = 1200 from by norm_num, exDurations,
    if_pos (by norm_num : (0:ℝ) < 1200)]
  simp only [mpcDefault, mkP2PTrajectory, moveStateForward, withJerk]
  simp only [Trajectory.mk.injEq, internalState.mk.injEq]
  norm_num

set_option maxHeartbeats 2000000 in
/-- Explicit value of the first stop fixture: `exP2P` interrupted at
wall-clock time 1, during its constant-acceleration phase. -/
theorem exStop1_eq : exStop1 =
    { end_ := 150
      state0 := ⟨0, 175 / 6, 75, 100, -200⟩
      state1 := ⟨1, 725 / 6, 75, -100, 0⟩
      state2 := ⟨3 / 2, 875 / 6, 25, -100, 200⟩
      state3 := ⟨2, 150, 0, 0, 0⟩
      state4 := ⟨2, 150, 0, 0, 0⟩
      state5 := ⟨2, 150, 0, 0, 0⟩
      state6 := ⟨2, 150, 0, 0, 0⟩
      state7 := ⟨2, 150, 0, 0, 0⟩
      t0 := 1
      tjStop1 := 1
      taStop := 0
      tjStop2 := 1 / 2
      tj := 0
      ta := 0
      tv := 0
      isStopping := true } := by
  rw [exStop1, exP2P_eq]
  norm_num [CalculateStoppingTrajectory,
    calculateStoppingTrajectoryFromPointToPointTrajectory,
    stopP2PDurations, mkStoppingTrajectory, calculateStateAtTime,
    withTimeZero, withJerk, moveStateForward, mpcDefault,
    Trajectory.mk.injEq, internalState.mk.injEq]

set_option maxHeartbeats 2000000 in
/-- Explicit value of the second stop fixture: `exStop1` interrupted at
wall-clock time 3/2, during its first braking phase.  Its final breakpoint
carries velocity 50. -/
theorem exStop2_eq : exStop2 =
    { end_ := 150
      state0 := ⟨0, 75, 100, 0, -200⟩
      state1 := ⟨1 / 2, 725 / 6, 75, -100, 0⟩
      state2 := ⟨1 / 2, 725 / 6, 75, -100, 200⟩
      state3 := ⟨1, 150, 50, 0, 0⟩
      state4 := ⟨1, 150, 50, 0, 0⟩
      state5 := ⟨1, 150, 50, 0, 0⟩
      state6 := ⟨1, 150, 50, 0, 0⟩
      state7 := ⟨1, 150, 50, 0, 0⟩
      t0 := 3 / 2
      tjStop1 := 1 / 2
      taStop := 0
      tjStop2 := 1 / 2
      tj := 0
      ta := 0
      tv := 0
      isStopping := true } := by
  rw [exStop2, exStop1_eq]
  norm_num [CalculateStoppingTrajectory,
    calculateStoppingTrajectoryFromStoppingTrajectory,
    stopStopDurations, mkStoppingTrajectory, calculateStateAtTime,
    withTimeZero, withJerk, moveStateForward, mpcDefault,
    Trajectory.mk.injEq, internalState.mk.injEq]

/-- C4 counterexample: `exStop2` interrupts the stopping trajectory `exStop1`
at wall-clock time 3/2, while `exStop1` is executing its *first* phase
(elapsed time 1/2 is within `tjStop1 = 1`).  The claim says the other two
phase durations are zeroed, but the produced trajectory has
`tjStop2 = 1/2 ≠ 0`, copied from the interrupted trajectory's stored field. -/
theorem c4_stop_of_stop_counterexample :
    exStop2 = CalculateStoppingTrajectory mpcDefault exStop1 (3 / 2) ∧
    exStop1.isStopping = true ∧
    (3 / 2 : ℝ) - exStop1.t0 ≤ exStop1.state1.t ∧
    ¬ exStop2.tjStop2 = 0 := by
  refine ⟨rfl, ?_, ?_, ?_⟩
  · rw [exStop1_eq]
  · rw [exStop1_eq]; norm_num
  · rw [exStop2_eq]; norm_num

/-- C4 witness: the amended theorem applied to the concrete stop-of-stop
fixture `exStop1` interrupted at wall-clock time 3/2 (during its first
phase): the produced durations are `tjStop1 = 1/2`, `taStop = 0` (the stored
field of `exStop1`), `tjStop2 = 1/2` (the stored field of `exStop1`). -/
theorem c4_stop_of_stop_durations_witness :
    exStop1.isStopping = true ∧
    (3 / 2 : ℝ) - exStop1.t0 ≤ exStop1.state1.t ∧
    (CalculateStoppingTrajectory mpcDefault exStop1 (3 / 2)).taStop = 0 ∧
    (CalculateStoppingTrajectory mpcDefault exStop1 (3 / 2)).state1.t =
      exStop1.state1.t - (3 / 2 - exStop1.t0) := by
  have hstop : exStop1.isStopping = true := by rw [exStop1_eq]
  have hph : (3 / 2 : ℝ) - exStop1.t0 ≤ exStop1.state1.t := by
    rw [exStop1_eq]; norm_num
  obtain ⟨h1, _, h3, _⟩ :=
    c4_stop_of_stop_durations mpcDefault exStop1 (3 / 2) hstop
  exact ⟨hstop, hph, h1, (h3 hph).1⟩

/-- C7: the code bug.  The spec claims that evaluating any trajectory at or
past the final breakpoint returns a final state with zero velocity and zero
acceleration.  The stop-of-stop fixture `exStop2` (a trajectory produced by
`CalculateStoppingTrajectory`) has final breakpoint time 1, and evaluating it
at elapsed time 2 — past the final breakpoint — returns the final breakpoint
state, whose velocity is 50, not 0 (its acceleration is 0).  The lost
constant-deceleration phase (`taStop` stored as 0 by the Go struct literal)
leaves residual velocity `j·d1·d3 = 200·(1/2)·(1/2) = 50`. -/
theorem c7_eval_past_end_velocity_nonzero :
    exStop2 = CalculateStoppingTrajectory mpcDefault exStop1 (3 / 2) ∧
    exStop2.state7.t = 1 ∧
    calculateStateAtTime exStop2 2 = exStop2.state7 ∧
    exStop2.state7.a = 0 ∧
    ¬ exStop2.state7.v = 0 := by
  refine ⟨rfl, ?_, ?_, ?_, ?_⟩
  · rw [exStop2_eq]
  · rw [exStop2_eq]
    norm_num [calculateStateAtTime]
  · rw [exStop2_eq]
  · rw [exStop2_eq]; norm_num

/-- C8 (amended): `SetSetpoint` of the live PID variant stores the new
setpoint and changes nothing else: the integral accumulator and the previous
error are left unchanged (the anti-windup reset is commented out in the
source). -/
theorem c8_setsetpoint_no_reset (pid : PID) (sp : ℝ) :
    (pid.SetSetpoint sp).Setpoint = sp ∧
    (pid.SetSetpoint sp).Integral = pid.Integral ∧
    (pid.SetSetpoint sp).PreviousError = pid.PreviousError := by
  simp [PID.SetSetpoint]

/-- C8 counterexample: the velocity PID `NewPID(150, 10, 0, 0.01, 150)` of
`NewController`, after `SetSetpoint(10)` and one `Update(0)` step, holds
integral 1/10 and previous error 10; a further `SetSetpoint(5)` leaves both
nonzero, contradicting the claimed reset to zero. -/
theorem c8_setsetpoint_counterexample :
    (((((NewPID 150 10 0 (1 / 100) 150).SetSetpoint 10).Update 0).1.SetSetpoint
        5).Setpoint = 5) ∧
    ¬ ((((NewPID 150 10 0 (1 / 100) 150).SetSetpoint 10).Update
        0).1.SetSetpoint 5).Integral = 0 ∧
    ¬ ((((NewPID 150 10 0 (1 / 100) 150).SetSetpoint 10).Update
        0).1.SetSetpoint 5).PreviousError = 0 := by
  norm_num [NewPID, PID.SetSetpoint, PID.Update]

/-- C9: after `handleIncomingEmergencyStopRequest` returns, the stored
pending-after-stop goal is always `none`: the handler overwrites any stored
goal with a synthetic anticipation goal and unconditionally clears it before
returning. -/
theorem c9_pending_goal_cleared (c : Controller) (request : Request)
    (side : Side) (γ : Clock) :
    (handleIncomingEmergencyStopRequest c request side
        γ).1.pendingGoalAfterStop = none := by
  cases side <;> simp [handleIncomingEmergencyStopRequest]

/-- C5 (amended): whenever an incoming border-move request conflicts with
the receiver's own pending border-move request or with its current motion
(`hasConflictingRequest`) and loses the priority tie (the receiver does not
defer, `shouldDeferToNeighbor` false), the receiver's response depends on the
arrival side, in every controller state: `REJECT` for a request from the
left neighbor, `WAIT` for one from the right neighbor; the controller is
unchanged. -/
theorem c5_lose_tie_response (c : Controller) (request : Request)
    (side : Side) (γ : Clock)
    (hconf : hasConflictingRequest c request side = true)
    (hdefer : shouldDeferToNeighbor c request side = false) :
    handleIncomingBorderMoveRequest c request side γ =
      (c, [Effect.sendResponse side
            ⟨request.RequestId,
              if side = Side.Left then ResponseType.REJECT
              else ResponseType.WAIT⟩]) := by
  cases side <;>
    simp [handleIncomingBorderMoveRequest, hconf, hdefer, rejectRequest,
      postponeRequest]

/-- C5 witness, exercising the current-motion conflict case: a cart *moving*
(goal timestamp 900, trajectory ending at 400, margin 30) receives a
conflicting request (id 600, proposed border end 420 < 400 + 30) from the
right neighbor; 600 > 900 fails, so it keeps priority and answers `WAIT`. -/
theorem c5_lose_tie_response_witness :
    hasConflictingRequest
        { cBase with state := State.Moving, GoalTimestamp := 900 }
        ⟨600, RequestType.BORDER_MOVE, 800, 420⟩ Side.Right = true ∧
    shouldDeferToNeighbor
        { cBase with state := State.Moving, GoalTimestamp := 900 }
        ⟨600, RequestType.BORDER_MOVE, 800, 420⟩ Side.Right = false ∧
    ({ cBase with
        state := State.Moving
        GoalTimestamp := 900 } : Controller).state = State.Moving ∧
    handleIncomingBorderMoveRequest
        { cBase with state := State.Moving, GoalTimestamp := 900 }
        ⟨600, RequestType.BORDER_MOVE, 800, 420⟩ Side.Right ⟨0, 3⟩ =
      ({ cBase with state := State.Moving, GoalTimestamp := 900 },
        [Effect.sendResponse Side.Right ⟨600, ResponseType.WAIT⟩]) := by
  have hconf : hasConflictingRequest
      { cBase with state := State.Moving, GoalTimestamp := 900 }
      ⟨600, RequestType.BORDER_MOVE, 800, 420⟩ Side.Right = true := by
    norm_num [hasConflictingRequest, bmMovingConflict, cBase,
      GetStationaryTrajectory]
  have hdefer : shouldDeferToNeighbor
      { cBase with state := State.Moving, GoalTimestamp := 900 }
      ⟨600, RequestType.BORDER_MOVE, 800, 420⟩ Side.Right = false := by
    norm_num [shouldDeferToNeighbor, bmMovingConflict, cBase,
      GetStationaryTrajectory]
  have h := c5_lose_tie_response
    { cBase with state := State.Moving, GoalTimestamp := 900 }
    ⟨600, RequestType.BORDER_MOVE, 800, 420⟩ Side.Right ⟨0, 3⟩ hconf hdefer
  refine ⟨hconf, hdefer, by simp [cBase], ?_⟩
  rw [h]
  simp

/-- C5 counterexample: the same situation mirrored to the left side — a
pending left-expansion request (id 900, goal 10) and a conflicting incoming
request with smaller id 700 from the left neighbor — is answered `REJECT`,
refuting the claim that the lose-tie response is never `Reject`. -/
theorem c5_lose_tie_counterexample :
    scanPendingConflict
        { cBase with PendingRequests := [(900, pendEntry 900 10)] }
        ⟨700, RequestType.BORDER_MOVE, 0, -20.3⟩ Side.Left
        { cBase with
            PendingRequests := [(900, pendEntry 900 10)] }.PendingRequests =
      (true, false) ∧
    (handleIncomingBorderMoveRequest
        { cBase with PendingRequests := [(900, pendEntry 900 10)] }
        ⟨700, RequestType.BORDER_MOVE, 0, -20.3⟩ Side.Left ⟨0, 3⟩).2 =
      [Effect.sendResponse Side.Left ⟨700, ResponseType.REJECT⟩] := by
  have hscan : scanPendingConflict
      { cBase with PendingRequests := [(900, pendEntry 900 10)] }
      ⟨700, RequestType.BORDER_MOVE, 0, -20.3⟩ Side.Left
      { cBase with
          PendingRequests := [(900, pendEntry 900 10)] }.PendingRequests =
      (true, false) := by
    norm_num [scanPendingConflict, cBase, pendEntry, GetStationaryTrajectory]
  have hmv : ¬ (({ cBase with
      PendingRequests := [(900, pendEntry 900 10)] }.state = State.Moving) ∨
      ({ cBase with
          PendingRequests := [(900, pendEntry 900 10)] }.state =
        State.Avoiding)) := by
    simp [cBase]
  refine ⟨hscan, ?_⟩
  simp [handleIncomingBorderMoveRequest, hasConflictingRequest,
    shouldDeferToNeighbor, bmMovingConflict, hscan, hmv, rejectRequest]

/-- C6 (amended): conflict resolution defers to the request with the
*larger* id.  When the receiver holds a conflicting pending border-move
request with id `p` and is neither moving nor avoiding: if the incoming id
exceeds `p` the receiver defers and (when the proposed border clears its own
trajectory by the safety margin) accepts, answering `ACCEPT`; if the incoming
id is not larger, the receiver keeps priority and answers `REJECT` (from the
left) or `WAIT` (from the right). -/
theorem c6_tie_break (c : Controller) (request : Request) (side : Side)
    (γ : Clock) (p : Int)
    (hm : c.state ≠ State.Moving) (ha : c.state ≠ State.Avoiding)
    (hscan : scanPendingConflict c request side c.PendingRequests =
      (true, decide (request.RequestId > p))) :
    (request.RequestId > p →
      (side = Side.Left →
        request.ProposedBorderEnd <
            c.CurrentTrajectory.end_ - c.safetyMargin →
        handleIncomingBorderMoveRequest c request side γ =
          acceptRequest c Side.Left c.LeftBorderTrajectory Side.Left request
            γ) ∧
      (side = Side.Right →
        request.ProposedBorderEnd >
            c.CurrentTrajectory.end_ + c.safetyMargin →
        handleIncomingBorderMoveRequest c request side γ =
          acceptRequest c Side.Right c.RightBorderTrajectory Side.Right
            request γ)) ∧
    (¬ request.RequestId > p →
      handleIncomingBorderMoveRequest c request side γ =
        (c, [Effect.sendResponse side
              ⟨request.RequestId,
                if side = Side.Left then ResponseType.REJECT
                else ResponseType.WAIT⟩])) ∧
    (∀ us ot rs, (acceptRequest c us ot rs request γ).2 =
      [Effect.sendResponse rs ⟨request.RequestId, ResponseType.ACCEPT⟩]) := by
  have hmv : ¬ (c.state = State.Moving ∨ c.state = State.Avoiding) := by
    rintro (h | h)
    · exact hm h
    · exact ha h
  refine ⟨fun hq => ⟨?_, ?_⟩, fun hq => ?_, fun us ot rs => ?_⟩
  · rintro rfl hgeo
    simp [handleIncomingBorderMoveRequest, hasConflictingRequest,
      shouldDeferToNeighbor, bmMovingConflict, hscan, hmv, hq, hgeo,
      handleBorderMove]
  · rintro rfl hgeo
    simp [handleIncomingBorderMoveRequest, hasConflictingRequest,
      shouldDeferToNeighbor, bmMovingConflict, hscan, hmv, hq, hgeo,
      handleBorderMove]
  · cases side <;>
      simp [handleIncomingBorderMoveRequest, hasConflictingRequest,
        shouldDeferToNeighbor, bmMovingConflict, hscan, hmv, hq,
        rejectRequest, postponeRequest]
  · simp [acceptRequest]

/-- C6 witness: the scenario of two carts at 400 and 1200 (borders
`[0, 800]` and `[800, 1600]`).  Cart 1, in `Requesting` with pending request
id 1000 (goal 1100), receives the conflicting request id 2000 (proposed
border end 469.7) from its right neighbor; 2000 > 1000, 469.7 > 400 + 30, so
it defers and answers `ACCEPT`. -/
theorem c6_tie_break_witness :
    handleIncomingBorderMoveRequest
        { cBase with
            state := State.Requesting
            PendingRequests := [(1000, pendEntry 1000 1100)] }
        ⟨2000, RequestType.BORDER_MOVE, 800, 469.7⟩ Side.Right ⟨0, 4⟩ =
      acceptRequest
        { cBase with
            state := State.Requesting
            PendingRequests := [(1000, pendEntry 1000 1100)] }
        Side.Right
        { cBase with
            state := State.Requesting
            PendingRequests :=
              [(1000, pendEntry 1000 1100)] }.RightBorderTrajectory
        Side.Right ⟨2000, RequestType.BORDER_MOVE, 800, 469.7⟩ ⟨0, 4⟩ ∧
    (acceptRequest
        { cBase with
            state := State.Requesting
            PendingRequests := [(1000, pendEntry 1000 1100)] }
        Side.Right
        { cBase with
            state := State.Requesting
            PendingRequests :=
              [(1000, pendEntry 1000 1100)] }.RightBorderTrajectory
        Side.Right ⟨2000, RequestType.BORDER_MOVE, 800, 469.7⟩ ⟨0, 4⟩).2 =
      [Effect.sendResponse Side.Right ⟨2000, ResponseType.ACCEPT⟩] := by
  have hm : ({ cBase with
      state := State.Requesting
      PendingRequests := [(1000, pendEntry 1000 1100)] }.state ≠
        State.Moving) := by
    simp [cBase]
  have ha : ({ cBase with
      state := State.Requesting
      PendingRequests := [(1000, pendEntry 1000 1100)] }.state ≠
        State.Avoiding) := by
    simp [cBase]
  have hscan : scanPendingConflict
      { cBase with
          state := State.Requesting
          PendingRequests := [(1000, pendEntry 1000 1100)] }
      ⟨2000, RequestType.BORDER_MOVE, 800, 469.7⟩ Side.Right
      { cBase with
          state := State.Requesting
          PendingRequests := [(1000, pendEntry 1000 1100)] }.PendingRequests =
      (true, decide
        ((⟨2000, RequestType.BORDER_MOVE, 800, 469.7⟩ :
            Request).RequestId > (1000 : Int))) := by
    norm_num [scanPendingConflict, cBase, pendEntry, GetStationaryTrajectory]
  have h := c6_tie_break
    { cBase with
        state := State.Requesting
        PendingRequests := [(1000, pendEntry 1000 1100)] }
    ⟨2000, RequestType.BORDER_MOVE, 800, 469.7⟩ Side.Right ⟨0, 4⟩ 1000
    hm ha hscan
  refine ⟨(h.1 (by norm_num)).2 rfl ?_, h.2.2 _ _ _⟩
  norm_num [cBase, GetStationaryTrajectory]

/-- C6 counterexample: in the same two-cart contention, cart 2 (at 1200,
borders `[800, 1600]`, pending request id 2000 with goal 500) receives the
conflicting request with the *smaller* id 1000 from its left neighbor and
answers `REJECT` — the claim predicts the smaller (earlier) id is deferred to
and answered `Accept`. -/
theorem c6_tie_break_counterexample :
    scanPendingConflict
        { cBase with
            LeftBorderTrajectory := GetStationaryTrajectory 800 0
            RightBorderTrajectory := GetStationaryTrajectory 1600 0
            CurrentTrajectory := GetStationaryTrajectory 1200 0
            state := State.Requesting
            PendingRequests := [(2000, pendEntry 2000 500)] }
        ⟨1000, RequestType.BORDER_MOVE, 800, 1130.3⟩ Side.Left
        { cBase with
            LeftBorderTrajectory := GetStationaryTrajectory 800 0
            RightBorderTrajectory := GetStationaryTrajectory 1600 0
            CurrentTrajectory := GetStationaryTrajectory 1200 0
            state := State.Requesting
            PendingRequests :=
              [(2000, pendEntry 2000 500)] }.PendingRequests =
      (true, false) ∧
    (1000 : Int) < 2000 ∧
    (handleIncomingBorderMoveRequest
        { cBase with
            LeftBorderTrajectory := GetStationaryTrajectory 800 0
            RightBorderTrajectory := GetStationaryTrajectory 1600 0
            CurrentTrajectory := GetStationaryTrajectory 1200 0
            state := State.Requesting
            PendingRequests := [(2000, pendEntry 2000 500)] }
        ⟨1000, RequestType.BORDER_MOVE, 800, 1130.3⟩ Side.Left ⟨0, 4⟩).2 =
      [Effect.sendResponse Side.Left ⟨1000, ResponseType.REJECT⟩] := by
  have hscan : scanPendingConflict
      { cBase with
          LeftBorderTrajectory := GetStationaryTrajectory 800 0
          RightBorderTrajectory := GetStationaryTrajectory 1600 0
          CurrentTrajectory := GetStationaryTrajectory 1200 0
          state := State.Requesting
          PendingRequests := [(2000, pendEntry 2000 500)] }
      ⟨1000, RequestType.BORDER_MOVE, 800, 1130.3⟩ Side.Left
      { cBase with
          LeftBorderTrajectory := GetStationaryTrajectory 800 0
          RightBorderTrajectory := GetStationaryTrajectory 1600 0
          CurrentTrajectory := GetStationaryTrajectory 1200 0
          state := State.Requesting
          PendingRequests := [(2000, pendEntry 2000 500)] }.PendingRequests =
      (true, false) := by
    norm_num [scanPendingConflict, cBase, pendEntry, GetStationaryTrajectory]
  have hmv : ¬ (({ cBase with
      LeftBorderTrajectory := GetStationaryTrajectory 800 0
      RightBorderTrajectory := GetStationaryTrajectory 1600 0
      CurrentTrajectory := GetStationaryTrajectory 1200 0
      state := State.Requesting
      PendingRequests := [(2000, pendEntry 2000 500)] }.state =
        State.Moving) ∨
      ({ cBase with
          LeftBorderTrajectory := GetStationaryTrajectory 800 0
          RightBorderTrajectory := GetStationaryTrajectory 1600 0
          CurrentTrajectory := GetStationaryTrajectory 1200 0
          state := State.Requesting
          PendingRequests := [(2000, pendEntry 2000 500)] }.state =
        State.Avoiding)) := by
    simp [cBase]
  refine ⟨hscan, by norm_num, ?_⟩
  simp [handleIncomingBorderMoveRequest, hasConflictingRequest,
    shouldDeferToNeighbor, bmMovingConflict, hscan, hmv, rejectRequest]

/-- C2 (amended): goal intake.  A goal strictly inside both borders with the
safety margin is accepted immediately (point-to-point plan, accept state); a
goal with `L.end + m ≥ G` selects the left side: with a left neighbor the
agent enters `Requesting` and queues/sends the border-move request (proposed
end `G - 1.01·m`, id and timestamp `γ.ns`, retry `γ.ns + 10⁹ ns`), but with a
nil left channel the goal is permanently rejected — the agent goes `Idle` and
reports completion, queuing nothing.  Symmetrically on the right. -/
theorem c2_goal_intake (c : Controller) (goal : ℝ) (acceptState : State)
    (γ : Clock) :
    (c.LeftBorderTrajectory.end_ + c.safetyMargin < goal ∧
        goal < c.RightBorderTrajectory.end_ - c.safetyMargin →
      handleGoalRequest c goal acceptState γ =
        (acceptGoal c goal γ.ns acceptState γ, [])) ∧
    (c.LeftBorderTrajectory.end_ + c.safetyMargin ≥ goal →
      (c.hasOutgoingLeftRequest = true →
        handleGoalRequest c goal acceptState γ =
          ({ c with
              state := State.Requesting
              PendingRequests := mapInsert c.PendingRequests γ.ns
                ⟨goal,
                  ⟨γ.ns, RequestType.BORDER_MOVE, c.LeftBorderTrajectory.end_,
                    goal - 1.01 * c.safetyMargin⟩,
                  γ.ns + 1000000000, acceptState, none, none, none, none⟩ },
            [Effect.sendRequest Side.Left
              ⟨γ.ns, RequestType.BORDER_MOVE, c.LeftBorderTrajectory.end_,
                goal - 1.01 * c.safetyMargin⟩])) ∧
      (c.hasOutgoingLeftRequest = false →
        handleGoalRequest c goal acceptState γ =
          ({ c with state := State.Idle },
            [Effect.reportGoalCompletion]))) ∧
    (¬ c.LeftBorderTrajectory.end_ + c.safetyMargin ≥ goal →
      c.RightBorderTrajectory.end_ - c.safetyMargin ≤ goal →
      (c.hasOutgoingRightRequest = true →
        handleGoalRequest c goal acceptState γ =
          ({ c with
              state := State.Requesting
              PendingRequests := mapInsert c.PendingRequests γ.ns
                ⟨goal,
                  ⟨γ.ns, RequestType.BORDER_MOVE,
                    c.RightBorderTrajectory.end_,
                    goal + 1.01 * c.safetyMargin⟩,
                  γ.ns + 1000000000, acceptState, none, none, none, none⟩ },
            [Effect.sendRequest Side.Right
              ⟨γ.ns, RequestType.BORDER_MOVE, c.RightBorderTrajectory.end_,
                goal + 1.01 * c.safetyMargin⟩])) ∧
      (c.hasOutgoingRightRequest = false →
        handleGoalRequest c goal acceptState γ =
          ({ c with state := State.Idle },
            [Effect.reportGoalCompletion]))) := by
  refine ⟨fun hin => ?_, fun hout => ⟨fun hch => ?_, fun hch => ?_⟩,
    fun houtL houtR => ⟨fun hch => ?_, fun hch => ?_⟩⟩
  · simp [handleGoalRequest, handleGoalRequestWithOriginal, hin]
  · have hnin : ¬ (c.LeftBorderTrajectory.end_ + c.safetyMargin < goal ∧
        goal < c.RightBorderTrajectory.end_ - c.safetyMargin) := by
      rintro ⟨h1, _⟩
      exact absurd hout (not_le.mpr h1)
    simp [handleGoalRequest, handleGoalRequestWithOriginal, hnin,
      queueBorderMoveRequest, hout, trySendBorderMoveRequest,
      Controller.hasOutgoingRequest, hch]
  · have hnin : ¬ (c.LeftBorderTrajectory.end_ + c.safetyMargin < goal ∧
        goal < c.RightBorderTrajectory.end_ - c.safetyMargin) := by
      rintro ⟨h1, _⟩
      exact absurd hout (not_le.mpr h1)
    simp [handleGoalRequest, handleGoalRequestWithOriginal, hnin,
      queueBorderMoveRequest, hout, trySendBorderMoveRequest,
      Controller.hasOutgoingRequest, hch, rejectGoal]
  · have hnin : ¬ (c.LeftBorderTrajectory.end_ + c.safetyMargin < goal ∧
        goal < c.RightBorderTrajectory.end_ - c.safetyMargin) := by
      rintro ⟨_, h2⟩
      exact absurd houtR (not_le.mpr h2)
    simp [handleGoalRequest, handleGoalRequestWithOriginal, hnin,
      queueBorderMoveRequest, houtL, houtR, trySendBorderMoveRequest,
      Controller.hasOutgoingRequest, hch]
  · have hnin : ¬ (c.LeftBorderTrajectory.end_ + c.safetyMargin < goal ∧
        goal < c.RightBorderTrajectory.end_ - c.safetyMargin) := by
      rintro ⟨_, h2⟩
      exact absurd houtR (not_le.mpr h2)
    simp [handleGoalRequest, handleGoalRequestWithOriginal, hnin,
      queueBorderMoveRequest, houtL, houtR, trySendBorderMoveRequest,
      Controller.hasOutgoingRequest, hch, rejectGoal]

/-- C2 witness: the baseline cart (borders `[0, 800]`, margin 30) accepts
goal 400 immediately, and for out-of-bounds goal 10 (≤ 0 + 30) with a left
neighbor it enters `Requesting` and sends the border-move request with
proposed end `10 - 30.3`. -/
theorem c2_goal_intake_witness :
    (cBase.LeftBorderTrajectory.end_ + cBase.safetyMargin < 400 ∧
      (400 : ℝ) < cBase.RightBorderTrajectory.end_ - cBase.safetyMargin) ∧
    handleGoalRequest cBase 400 State.Moving ⟨0, 5⟩ =
      (acceptGoal cBase 400 5 State.Moving ⟨0, 5⟩, []) ∧
    (handleGoalRequest cBase 10 State.Moving ⟨0, 5⟩).1.state =
      State.Requesting ∧
    (handleGoalRequest cBase 10 State.Moving ⟨0, 5⟩).2 =
      [Effect.sendRequest Side.Left
        ⟨5, RequestType.BORDER_MOVE, cBase.LeftBorderTrajectory.end_,
          10 - 1.01 * cBase.safetyMargin⟩] := by
  have hin : cBase.LeftBorderTrajectory.end_ + cBase.safetyMargin < 400 ∧
      (400 : ℝ) < cBase.RightBorderTrajectory.end_ - cBase.safetyMargin := by
    norm_num [cBase, GetStationaryTrajectory]
  have hout : cBase.LeftBorderTrajectory.end_ + cBase.safetyMargin ≥ 10 := by
    norm_num [cBase, GetStationaryTrajectory]
  have h1 := (c2_goal_intake cBase 400 State.Moving ⟨0, 5⟩).1 hin
  have h2 := ((c2_goal_intake cBase 10 State.Moving ⟨0, 5⟩).2.1 hout).1
    (by simp [cBase])
  refine ⟨hin, h1, ?_, ?_⟩
  · rw [h2]
  · rw [h2]

/-- C2 counterexample: with a nil left channel (hard wall), the out-of-bounds
goal 10 does not put the agent into `Requesting` with a queued border-move
request, as claimed: the agent goes `Idle`, queues nothing, and reports goal
completion. -/
theorem c2_goal_intake_counterexample :
    { cBase with hasOutgoingLeftRequest := false }.LeftBorderTrajectory.end_ +
        { cBase with hasOutgoingLeftRequest := false }.safetyMargin ≥ 10 ∧
    (handleGoalRequest { cBase with hasOutgoingLeftRequest := false } 10
        State.Moving ⟨0, 5⟩).1.state = State.Idle ∧
    ¬ (handleGoalRequest { cBase with hasOutgoingLeftRequest := false } 10
        State.Moving ⟨0, 5⟩).1.state = State.Requesting ∧
    (handleGoalRequest { cBase with hasOutgoingLeftRequest := false } 10
        State.Moving ⟨0, 5⟩).1.PendingRequests = [] ∧
    (handleGoalRequest { cBase with hasOutgoingLeftRequest := false } 10
        State.Moving ⟨0, 5⟩).2 = [Effect.reportGoalCompletion] := by
  refine ⟨?_, ?_, ?_, ?_, ?_⟩ <;>
    norm_num [handleGoalRequest, handleGoalRequestWithOriginal,
      queueBorderMoveRequest, trySendBorderMoveRequest,
      Controller.hasOutgoingRequest, rejectGoal, cBase,
      GetStationaryTrajectory] <;>
    decide

/-- Facts about `executeEmergencyStop` that hold unconditionally: the state
becomes `Stopping`, the current trajectory is replaced by its stopping
trajectory, the pending map keeps exactly the `EMERGENCY_STOP` entries, and
no request is sent. -/
theorem executeEmergencyStop_facts (c : Controller) (γ : Clock) :
    (executeEmergencyStop c γ).1.state = State.Stopping ∧
    (executeEmergencyStop c γ).1.CurrentTrajectory =
      CalculateStoppingTrajectory c.planner c.CurrentTrajectory γ.sec ∧
    (executeEmergencyStop c γ).1.PendingRequests =
      c.PendingRequests.filter
        (fun kv => kv.2.request.rtype = RequestType.EMERGENCY_STOP) ∧
    ∀ s r, Effect.sendRequest s r ∉ (executeEmergencyStop c γ).2 := by
  cases hconf : c.PendingEmergencyStopConfirmation with
  | none =>
    simp only [executeEmergencyStop, hconf]
    split_ifs <;> simp
  | some conf =>
    simp only [executeEmergencyStop, hconf]
    split_ifs <;> simp

/-- When neither emergency-stop guard fires,
`sendEmergencyStopRequestsAndWait` is exactly `executeEmergencyStop`. -/
theorem sendEStop_noSend (c : Controller) (γ : Clock)
    (hdl : eStopDoLeft c γ = false) (hdr : eStopDoRight c γ = false) :
    sendEmergencyStopRequestsAndWait c γ = executeEmergencyStop c γ := by
  simp [sendEmergencyStopRequestsAndWait, hdl, hdr]

/-- Stopping a stationary trajectory at its start instant ends at the same
point. -/
theorem stopOfStationary_end (p : ℝ) :
    (CalculateStoppingTrajectory mpcDefault (GetStationaryTrajectory p 0)
        0).end_ = p := by
  norm_num [CalculateStoppingTrajectory,
    calculateStoppingTrajectoryFromPointToPointTrajectory, stopP2PDurations,
    mkStoppingTrajectory, GetStationaryTrajectory, calculateStateAtTime,
    withTimeZero, withJerk, moveStateForward]

/-- C10: if the hypothetical stop position violates borders only on sides
whose outgoing request channel is nil, and any pending-after-stop goal
requires expansion only toward channel-less sides, then
`sendEmergencyStopRequestsAndWait` sends no request and executes the stop
immediately: the state becomes `Stopping`, the current trajectory becomes the
stopping trajectory, and its end position still violates the border with the
safety margin. -/
theorem c10_hard_wall_stop (c : Controller) (γ : Clock)
    (hLv : (CalculateStoppingTrajectory c.planner c.CurrentTrajectory
        γ.sec).end_ < c.LeftBorderTrajectory.end_ + c.safetyMargin →
      c.hasOutgoingLeftRequest = false)
    (hRv : (CalculateStoppingTrajectory c.planner c.CurrentTrajectory
        γ.sec).end_ > c.RightBorderTrajectory.end_ - c.safetyMargin →
      c.hasOutgoingRightRequest = false)
    (hpg : ∀ g, c.pendingGoalAfterStop = some g →
      (c.LeftBorderTrajectory.end_ + c.safetyMargin ≥ g →
        c.hasOutgoingLeftRequest = false) ∧
      (c.RightBorderTrajectory.end_ - c.safetyMargin ≤ g →
        c.hasOutgoingRightRequest = false))
    (hviol : (CalculateStoppingTrajectory c.planner c.CurrentTrajectory
        γ.sec).end_ < c.LeftBorderTrajectory.end_ + c.safetyMargin ∨
      (CalculateStoppingTrajectory c.planner c.CurrentTrajectory
        γ.sec).end_ > c.RightBorderTrajectory.end_ - c.safetyMargin) :
    sendEmergencyStopRequestsAndWait c γ = executeEmergencyStop c γ ∧
    (∀ s r, Effect.sendRequest s r ∉
      (sendEmergencyStopRequestsAndWait c γ).2) ∧
    (sendEmergencyStopRequestsAndWait c γ).1.state = State.Stopping ∧
    (sendEmergencyStopRequestsAndWait c γ).1.CurrentTrajectory =
      CalculateStoppingTrajectory c.planner c.CurrentTrajectory γ.sec ∧
    ((sendEmergencyStopRequestsAndWait c γ).1.CurrentTrajectory.end_ <
        c.LeftBorderTrajectory.end_ + c.safetyMargin ∨
      (sendEmergencyStopRequestsAndWait c γ).1.CurrentTrajectory.end_ >
        c.RightBorderTrajectory.end_ - c.safetyMargin) := by
  have hdl : eStopDoLeft c γ = false := by
    rw [eStopDoLeft]
    cases hcl : c.hasOutgoingLeftRequest
    · exact Bool.and_false _
    · have h1 : decide ((CalculateStoppingTrajectory c.planner
          c.CurrentTrajectory γ.sec).end_ <
            c.LeftBorderTrajectory.end_ + c.safetyMargin) = false := by
        rw [decide_eq_false_iff_not]
        intro hv
        rw [hLv hv] at hcl
        exact Bool.noConfusion hcl
      have h2 : pendingGoalRequiresLeftExpansion c = false := by
        cases hp : c.pendingGoalAfterStop with
        | none => simp [pendingGoalRequiresLeftExpansion, hp]
        | some g =>
          simp only [pendingGoalRequiresLeftExpansion, hp]
          rw [decide_eq_false_iff_not]
          intro hg
          rw [(hpg g hp).1 hg] at hcl
          exact Bool.noConfusion hcl
      rw [h1, h2]
      rfl
  have hdr : eStopDoRight c γ = false := by
    rw [eStopDoRight]
    cases hcr : c.hasOutgoingRightRequest
    · exact Bool.and_false _
    · have h1 : decide ((CalculateStoppingTrajectory c.planner
          c.CurrentTrajectory γ.sec).end_ >
            c.RightBorderTrajectory.end_ - c.safetyMargin) = false := by
        rw [decide_eq_false_iff_not]
        intro hv
        rw [hRv hv] at hcr
        exact Bool.noConfusion hcr
      have h2 : pendingGoalRequiresRightExpansion c = false := by
        cases hp : c.pendingGoalAfterStop with
        | none => simp [pendingGoalRequiresRightExpansion, hp]
        | some g =>
          simp only [pendingGoalRequiresRightExpansion, hp]
          rw [decide_eq_false_iff_not]
          intro hg
          rw [(hpg g hp).2 hg] at hcr
          exact Bool.noConfusion hcr
      rw [h1, h2]
      rfl
  have heq := sendEStop_noSend c γ hdl hdr
  obtain ⟨f1, f2, f3, f4⟩ := executeEmergencyStop_facts c γ
  rw [heq]
  exact ⟨rfl, f4, f1, f2, by rw [f2]; exact hviol⟩

/-- C10 witness: the fixture cart at 790 with right border 800, margin 30 and
a nil right channel: its stop position 790 exceeds `800 - 30`, no request is
sent, the stop executes immediately, and the installed stopping trajectory
still ends at 790, beyond the right border margin. -/
theorem c10_hard_wall_stop_witness :
    ((CalculateStoppingTrajectory cWallR.planner cWallR.CurrentTrajectory
        ((⟨0, 11⟩ : Clock).sec)).end_ >
      cWallR.RightBorderTrajectory.end_ - cWallR.safetyMargin) ∧
    (∀ s r, Effect.sendRequest s r ∉
      (sendEmergencyStopRequestsAndWait cWallR ⟨0, 11⟩).2) ∧
    (sendEmergencyStopRequestsAndWait cWallR ⟨0, 11⟩).1.state =
      State.Stopping ∧
    ((sendEmergencyStopRequestsAndWait cWallR
          ⟨0, 11⟩).1.CurrentTrajectory.end_ <
        cWallR.LeftBorderTrajectory.end_ + cWallR.safetyMargin ∨
      (sendEmergencyStopRequestsAndWait cWallR
          ⟨0, 11⟩).1.CurrentTrajectory.end_ >
        cWallR.RightBorderTrajectory.end_ - cWallR.safetyMargin) := by
  have hend : (CalculateStoppingTrajectory cWallR.planner
      cWallR.CurrentTrajectory ((⟨0, 11⟩ : Clock).sec)).end_ = 790 := by
    simp only [cWallR, cBase]
    exact stopOfStationary_end 790
  have hL0 : cWallR.LeftBorderTrajectory.end_ = 0 := by
    simp [cWallR, cBase, GetStationaryTrajectory]
  have hR8 : cWallR.RightBorderTrajectory.end_ = 800 := by
    simp [cWallR, cBase, GetStationaryTrajectory]
  have hm30 : cWallR.safetyMargin = 30 := by
    simp [cWallR, cBase]
  have hviolR : (CalculateStoppingTrajectory cWallR.planner
      cWallR.CurrentTrajectory ((⟨0, 11⟩ : Clock).sec)).end_ >
      cWallR.RightBorderTrajectory.end_ - cWallR.safetyMargin := by
    rw [hend, hR8, hm30]
    norm_num
  obtain ⟨heq, hno, hst, htr, hviol⟩ := c10_hard_wall_stop cWallR ⟨0, 11⟩
    (fun hv => by rw [hend, hL0, hm30] at hv; norm_num at hv)
    (fun _ => by simp [cWallR, cBase])
    (fun g hg => by simp [cWallR, cBase] at hg)
    (Or.inr hviolR)
  exact ⟨hviolR, hno, hst, hviol⟩

/-- C1 (amended): emergency-stop dispatch.  A request goes to a neighbor only
when that side is affected (stop-position violation or pending-goal
expansion) *and* its outgoing channel exists (`eStopDoLeft` / `eStopDoRight`).
If neither guard fires — including when an affected side has a nil channel —
the stop executes immediately: the trajectory is replaced by the stopping
trajectory, the state becomes `Stopping`, and non-emergency pending requests
are dropped.  If a guard fires, the state becomes `Requesting`, the current
trajectory is left unchanged, and each firing side is sent an
`EMERGENCY_STOP` request with fresh id (`γ.ns`, `γ.ns + 1`) recorded as
pending with retry deadline `γ.ns + 10⁹` ns. -/
theorem c1_emergency_stop_dispatch (c : Controller) (γ : Clock) :
    (eStopDoLeft c γ = false → eStopDoRight c γ = false →
      sendEmergencyStopRequestsAndWait c γ = executeEmergencyStop c γ ∧
      (sendEmergencyStopRequestsAndWait c γ).1.state = State.Stopping ∧
      (sendEmergencyStopRequestsAndWait c γ).1.CurrentTrajectory =
        CalculateStoppingTrajectory c.planner c.CurrentTrajectory γ.sec ∧
      (sendEmergencyStopRequestsAndWait c γ).1.PendingRequests =
        c.PendingRequests.filter
          (fun kv => kv.2.request.rtype = RequestType.EMERGENCY_STOP)) ∧
    ((eStopDoLeft c γ || eStopDoRight c γ) = true →
      (sendEmergencyStopRequestsAndWait c γ).1.state = State.Requesting ∧
      (sendEmergencyStopRequestsAndWait c γ).1.CurrentTrajectory =
        c.CurrentTrajectory ∧
      (sendEmergencyStopRequestsAndWait c γ).2 =
        (if eStopDoLeft c γ then
          [Effect.sendRequest Side.Left
            ⟨γ.ns, RequestType.EMERGENCY_STOP, 0, 0⟩]
         else []) ++
        (if eStopDoRight c γ then
          [Effect.sendRequest Side.Right
            ⟨γ.ns + 1, RequestType.EMERGENCY_STOP, 0, 0⟩]
         else []) ∧
      (eStopDoLeft c γ = true →
        ((γ.ns : Int), (⟨0, ⟨γ.ns, RequestType.EMERGENCY_STOP, 0, 0⟩,
            γ.ns + 1000000000, State.Stopping, none, none, none, none⟩ :
          RequestParameters)) ∈
          (sendEmergencyStopRequestsAndWait c γ).1.PendingRequests) ∧
      (eStopDoRight c γ = true →
        ((γ.ns + 1 : Int), (⟨0, ⟨γ.ns + 1, RequestType.EMERGENCY_STOP, 0, 0⟩,
            γ.ns + 1000000000, State.Stopping, none, none, none, none⟩ :
          RequestParameters)) ∈
          (sendEmergencyStopRequestsAndWait c γ).1.PendingRequests)) := by
  cases hl : eStopDoLeft c γ <;> cases hr : eStopDoRight c γ
  · have heq := sendEStop_noSend c γ hl hr
    obtain ⟨f1, f2, f3, _⟩ := executeEmergencyStop_facts c γ
    refine ⟨fun _ _ => ⟨heq, ?_, ?_, ?_⟩, fun hcon => ?_⟩
    · rw [heq]; exact f1
    · rw [heq]; exact f2
    · rw [heq]; exact f3
    · exact Bool.noConfusion hcon
  · refine ⟨fun _ h => Bool.noConfusion h, fun _ => ?_⟩
    refine ⟨?_, ?_, ?_, ?_, ?_⟩ <;>
      simp [sendEmergencyStopRequestsAndWait, hl, hr, mapInsert]
  · refine ⟨fun h _ => Bool.noConfusion h, fun _ => ?_⟩
    refine ⟨?_, ?_, ?_, ?_, ?_⟩ <;>
      simp [sendEmergencyStopRequestsAndWait, hl, hr, mapInsert]
  · refine ⟨fun h _ => Bool.noConfusion h, fun _ => ?_⟩
    refine ⟨?_, ?_, ?_, ?_, ?_⟩ <;>
      simp [sendEmergencyStopRequestsAndWait, hl, hr, mapInsert] <;>
      omega

/-- C1 witness: the fixture cart at 20 with left border 0, margin 30 and both
channels present: the left guard fires, the state becomes `Requesting`, the
current trajectory is unchanged, and exactly one `EMERGENCY_STOP` request
with id `γ.ns = 7` goes to the left neighbor. -/
theorem c1_emergency_stop_dispatch_witness :
    eStopDoLeft cViol ⟨0, 7⟩ = true ∧
    (sendEmergencyStopRequestsAndWait cViol ⟨0, 7⟩).1.state =
      State.Requesting ∧
    (sendEmergencyStopRequestsAndWait cViol ⟨0, 7⟩).1.CurrentTrajectory =
      cViol.CurrentTrajectory ∧
    (sendEmergencyStopRequestsAndWait cViol ⟨0, 7⟩).2 =
      [Effect.sendRequest Side.Left
        ⟨7, RequestType.EMERGENCY_STOP, 0, 0⟩] := by
  have hend : (CalculateStoppingTrajectory cViol.planner
      cViol.CurrentTrajectory ((⟨0, 7⟩ : Clock).sec)).end_ = 20 := by
    simp only [cViol, cBase]
    exact stopOfStationary_end 20
  have hl : eStopDoLeft cViol ⟨0, 7⟩ = true := by
    rw [eStopDoLeft, hend]
    norm_num [cViol, cBase, GetStationaryTrajectory]
  have hr : eStopDoRight cViol ⟨0, 7⟩ = false := by
    rw [eStopDoRight, hend]
    norm_num [cViol, cBase, GetStationaryTrajectory,
      pendingGoalRequiresRightExpansion]
  obtain ⟨hst, htr, heff, _, _⟩ :=
    (c1_emergency_stop_dispatch cViol ⟨0, 7⟩).2 (by rw [hl]; rfl)
  refine ⟨hl, hst, htr, ?_⟩
  rw [heff, hl, hr]
  simp

/-- C1 counterexample: the same violating cart with a *nil* left channel.
The left side is affected (stop position 20 violates border `0 + 30`), yet no
request is sent, the state becomes `Stopping` (not `Requesting`), and the
current trajectory *is* replaced by a stopping trajectory — refuting the
claimed otherwise-branch (`EmergencyStop` to each affected neighbor, no
braking yet). -/
theorem c1_emergency_stop_counterexample :
    ((CalculateStoppingTrajectory cWallL.planner cWallL.CurrentTrajectory
        ((⟨0, 9⟩ : Clock).sec)).end_ <
      cWallL.LeftBorderTrajectory.end_ + cWallL.safetyMargin) ∧
    (sendEmergencyStopRequestsAndWait cWallL ⟨0, 9⟩).2 = [] ∧
    (sendEmergencyStopRequestsAndWait cWallL ⟨0, 9⟩).1.state =
      State.Stopping ∧
    (sendEmergencyStopRequestsAndWait cWallL
        ⟨0, 9⟩).1.CurrentTrajectory.isStopping = true ∧
    cWallL.CurrentTrajectory.isStopping = false := by
  have hend : (CalculateStoppingTrajectory cWallL.planner
      cWallL.CurrentTrajectory ((⟨0, 9⟩ : Clock).sec)).end_ = 20 := by
    simp only [cWallL, cBase]
    exact stopOfStationary_end 20
  have hviol : (CalculateStoppingTrajectory cWallL.planner
      cWallL.CurrentTrajectory ((⟨0, 9⟩ : Clock).sec)).end_ <
      cWallL.LeftBorderTrajectory.end_ + cWallL.safetyMargin := by
    rw [hend]
    norm_num [cWallL, cBase, GetStationaryTrajectory]
  have hl : eStopDoLeft cWallL ⟨0, 9⟩ = false := by
    rw [eStopDoLeft]
    simp [cWallL, cBase]
  have hr : eStopDoRight cWallL ⟨0, 9⟩ = false := by
    rw [eStopDoRight, hend]
    norm_num [cWallL, cBase, GetStationaryTrajectory,
      pendingGoalRequiresRightExpansion]
  have heq := sendEStop_noSend cWallL ⟨0, 9⟩ hl hr
  obtain ⟨f1, f2, _, _⟩ := executeEmergencyStop_facts cWallL ⟨0, 9⟩
  have hstop : (CalculateStoppingTrajectory cWallL.planner
      cWallL.CurrentTrajectory ((⟨0, 9⟩ : Clock).sec)).isStopping = true := by
    simp [cWallL, cBase, CalculateStoppingTrajectory,
      calculateStoppingTrajectoryFromPointToPointTrajectory,
      GetStationaryTrajectory, mkStoppingTrajectory]
  have heff : (executeEmergencyStop cWallL ⟨0, 9⟩).2 = [] := by
    norm_num [executeEmergencyStop, IsFinished, cWallL, cBase,
      GetStationaryTrajectory]
  refine ⟨hviol, ?_, ?_, ?_, ?_⟩
  · rw [heq]
    exact heff
  · rw [heq]
    exact f1
  · rw [heq, f2]
    exact hstop
  · simp [cWallL, cBase, GetStationaryTrajectory]

end

end GoCart
